import Mathlib

/-!
Verification of the attendance-logging web service (`src/app.py`, the
Flask-based implementation, and `src/server.py`, the base-HTTP
implementation) against its natural-language specification.

The two Python modules are shallowly embedded below.  Stateful code (the
SQLite `attendance` table, the in-memory `sessions` dictionary, the Flask
session flag) is modelled by explicit state passing; request handlers become
pure functions from an environment, a request and a state to a response and
a new state.  Nondeterministic inputs of the real system (the server clock,
the freshly generated uuid4 token, the contents of template files on disk)
are supplied through an explicit `Env` record.
-/

/-- Scalar JSON values, as produced by `json.loads` for the request fields
the handlers read.  Composite JSON values (arrays and objects) are excluded
from the model: `sqlite3` parameter binding raises `InterfaceError` on them
before any of the behaviour under study happens, and a non-object top-level
body raises `AttributeError` at `data.get` in both implementations.  Every
claim under study concerns scalar payload fields.  Numbers are modelled as
rationals (the handlers only carry them through, never compute with them). -/
inductive Json where
  | null : Json
  | bool (b : Bool) : Json
  | num (q : Rat) : Json
  | str (s : String) : Json
deriving DecidableEq, Repr

/-- Python truthiness (`bool(x)`) for the modelled JSON scalars: `None`,
`False`, `0` and `""` are falsy, everything else truthy.  This is what the
`not employee_id` tests in both punch handlers evaluate. -/
def truthy : Json → Bool
  | Json.null => false
  | Json.bool b => b
  | Json.num q => !(q == 0)
  | Json.str s => !(s == "")

/-- `data.get(key)` on a parsed JSON object: the first binding of `key`, or
`None` when the key is absent (Python's `dict.get` default). -/
def jsonGet : List (String × Json) → String → Json
  | [], _ => Json.null
  | (k, v) :: rest, key => if k == key then v else jsonGet rest key

/-- One row of the `attendance` table, holding exactly the values bound by
the `INSERT INTO attendance (employee_id, action, timestamp, latitude,
longitude)` statement shared by both implementations.  `id` is the
AUTOINCREMENT primary key; `timestamp` is always the server-generated
string.  The payload-derived columns keep their JSON-scalar type, since the
handlers bind whatever scalar the client sent. -/
structure PunchRow where
  id : Nat
  employee_id : Json
  action : Json
  timestamp : String
  latitude : Json
  longitude : Json
deriving DecidableEq, Repr

/-- The `attendance` table: rows in insertion order plus the AUTOINCREMENT
counter (SQLite's AUTOINCREMENT never reuses an id, and no delete exists). -/
structure PunchStore where
  records : List PunchRow
  nextId : Nat
deriving DecidableEq, Repr

/-- The empty database created by `init_db`; AUTOINCREMENT ids start at 1. -/
def emptyStore : PunchStore := ⟨[], 1⟩

/-- The `INSERT INTO attendance ...` + `commit` performed by both punch
handlers: appends one fully-assembled row and advances the id counter. -/
def insertPunch (st : PunchStore) (emp act lat lon : Json) (ts : String) :
    PunchStore :=
  ⟨st.records ++ [⟨st.nextId, emp, act, ts, lat, lon⟩], st.nextId + 1⟩

/-!
### Executable string helpers

The bodies of Lean's own `String.startsWith`, `String.trim`, `String.splitOn`
and the `String` order use `Substring`/byte-position machinery that the
kernel cannot evaluate, so the string processing the Python code performs is
implemented here directly over `String.data` (lists of characters).
-/

/-- Character-list version of `a.startswith(b)` (Python `str.startswith`). -/
def startsWithChars : List Char → List Char → Bool
  | _, [] => true
  | [], _ :: _ => false
  | c :: cs, p :: ps => (c == p) && startsWithChars cs ps

/-- Python `str.strip()` restricted to the ASCII space character, which is
the only whitespace the `Cookie` header splitting can produce. -/
def trimSpaces (cs : List Char) : List Char :=
  (((cs.dropWhile (fun c => c == ' ')).reverse.dropWhile
      (fun c => c == ' ')).reverse)

/-- Python `s.split(sep)` for a single-character separator. -/
def splitOnChar (sep : Char) (cs : List Char) : List (List Char) :=
  match cs with
  | [] => [[]]
  | c :: rest =>
    let tail := splitOnChar sep rest
    if c == sep then [] :: tail
    else
      match tail with
      | [] => [[c]]
      | t :: ts => (c :: t) :: ts

/-- Lexicographic order on character lists; for the ASCII timestamps stored
by the handlers this coincides with SQLite's binary (memcmp) ordering of
`TEXT` values, which `ORDER BY timestamp` uses. -/
def charsLe : List Char → List Char → Bool
  | [], _ => true
  | _ :: _, [] => false
  | a :: as, b :: bs =>
    if a = b then charsLe as bs else decide (a < b)

/-- String-level wrapper for the timestamp order. -/
def strLe (a b : String) : Bool := charsLe a.data b.data

/-- `'\n'.join(lines)` / `','.join(fields)` (Python `str.join`). -/
def joinSep (sep : String) : List String → String
  | [] => ""
  | [x] => x
  | x :: xs => x ++ sep ++ joinSep sep xs

/-- Concatenation of a list of strings (used for the `csv.writer` output,
where every row already carries its `\r\n` terminator). -/
def joinAll : List String → String
  | [] => ""
  | x :: xs => x ++ joinAll xs

/-!
### HTTP responses, environment and session state
-/

/-- The kinds of response bodies the handlers emit. -/
inductive RespBody where
  | jsonMsg (success : Bool) (message : String) : RespBody
  | page (content : String) : RespBody
  | csvFile (content : String) (filename : String) : RespBody
  | errorPage (code : Nat) : RespBody
  | empty : RespBody
deriving DecidableEq, Repr

/-- An HTTP response as both implementations produce it: status code, body,
optional `Location` header, optional `Set-Cookie` header, and (Flask only)
the message recorded by `flash`. -/
structure Response where
  status : Nat
  body : RespBody
  location : Option String
  cookie : Option String
  flashed : Option String
deriving DecidableEq, Repr

/-- Request-independent inputs of the real system, made explicit: the
configured admin credentials (environment variables with defaults), the
server clock readings (`datetime.utcnow().isoformat()` and the compact
`strftime` form), the fresh `uuid4` session token, and the contents of the
template files on disk.  `staticResponse` abstracts the static-file serving
of `server.py` (pure filesystem glue that never touches the stores). -/
structure Env where
  adminUsername : String
  adminPassword : String
  clock : String
  clockCompact : String
  freshToken : String
  templates : String → Option String
  renderAdmin : List PunchRow → String
  staticResponse : Response

/-!
### Rendering of stored values (Python `str()` / f-string conversion)
-/

/-- The decimal digit character for `n < 10`. -/
def digitChar (n : Nat) : Char := Char.ofNat (48 + n)

/-- Decimal digits of a natural number (fuel-structured so that the kernel
can evaluate it; `fuel ≥ n + 1` always suffices). -/
def natStrAux : Nat → Nat → List Char
  | 0, _ => []
  | fuel + 1, n =>
    if n < 10 then [digitChar n] else natStrAux fuel (n / 10) ++ [digitChar (n % 10)]

/-- Python `str` of a natural number. -/
def natStr (n : Nat) : String := String.mk (natStrAux (n + 1) n)

/-- Decimal expansion of the fractional remainder `r / d`, one digit per
fuel step, stopping when the remainder vanishes. -/
def fracDigitsAux : Nat → Nat → Nat → List Char
  | 0, _, _ => []
  | _ + 1, 0, _ => []
  | fuel + 1, r, d => digitChar (r * 10 / d) :: fracDigitsAux fuel (r * 10 % d) d

/-- Python `str()` of the number read back from a `REAL` column, modelled
over the rational carried by `Json.num`: sign, integer part, then the
decimal fraction (`".0"` when exact, as Python prints floats). -/
def ratRender (q : Rat) : String :=
  let sign := if q < 0 then "-" else ""
  let n := q.num.natAbs
  let ip := n / q.den
  let r := n % q.den
  if r == 0 then sign ++ natStr ip ++ ".0"
  else sign ++ natStr ip ++ "." ++ String.mk (fracDigitsAux 40 r q.den)

/-- Python `str()` (equivalently f-string interpolation) of a stored scalar,
as used when the handlers render database values into CSV cells and HTML
table cells. -/
def pyStr : Json → String
  | Json.null => "None"
  | Json.bool true => "True"
  | Json.bool false => "False"
  | Json.num q => ratRender q
  | Json.str s => s

/-- `'' if v is None else v` — the CSV cell rendering both exports apply to
the latitude/longitude columns (`csv.writer` also writes `None` as an empty
cell). -/
def renderCell (v : Json) : String :=
  if v == Json.null then "" else pyStr v

/-!
### `ORDER BY timestamp` (SQLite)

Both exports read `SELECT ... ORDER BY timestamp`; the admin dashboards read
`ORDER BY timestamp DESC`.  The sort is modelled as a stable insertion sort
over the rows in insertion order: rows with equal timestamps keep their
relative (insertion, hence id) order.
-/

/-- Insert a row into a timestamp-ascending list, before the first row whose
timestamp is not smaller (stability: among equal timestamps the inserted row,
which came earlier in the original list, stays first). -/
def tsInsert (r : PunchRow) : List PunchRow → List PunchRow
  | [] => [r]
  | y :: ys =>
    if strLe r.timestamp y.timestamp then r :: y :: ys else y :: tsInsert r ys

/-- `ORDER BY timestamp` (ascending), as a stable sort of the rows. -/
def orderByTimestamp : List PunchRow → List PunchRow
  | [] => []
  | r :: rs => tsInsert r (orderByTimestamp rs)

/-- Insert for the descending order. -/
def tsInsertDesc (r : PunchRow) : List PunchRow → List PunchRow
  | [] => [r]
  | y :: ys =>
    if strLe y.timestamp r.timestamp then r :: y :: ys else y :: tsInsertDesc r ys

/-- `ORDER BY timestamp DESC`, as a stable sort of the rows. -/
def orderByTimestampDesc : List PunchRow → List PunchRow
  | [] => []
  | r :: rs => tsInsertDesc r (orderByTimestampDesc rs)

/-!
### CSV serialisation
-/

/-- The fixed header row both exports emit. -/
def headerLine : String := "Employee ID,Action,Timestamp (UTC),Latitude,Longitude"

/-- The header split into its five cells. -/
def headerCells : List String :=
  ["Employee ID", "Action", "Timestamp (UTC)", "Latitude", "Longitude"]

/-- The five cell contents of one exported row, shared by both exports:
`employee_id`, `action` and the timestamp via Python `str()`, and the
coordinate columns with `NULL` rendered as an empty cell. -/
def csvCells (r : PunchRow) : List String :=
  [pyStr r.employee_id, pyStr r.action, r.timestamp,
   renderCell r.latitude, renderCell r.longitude]

/-- One data line of `server.py`'s export: the f-string
`f'{emp_id},{action},{ts},{lat_val},{lon_val}'` — a bare comma join with no
quoting or escaping. -/
def serverCsvLine (r : PunchRow) : String := joinSep (",") (csvCells r)

/-- `server.py` `handle_export`'s CSV text: header line and one line per
row in `ORDER BY timestamp` order, joined with `'\n'`. -/
def server_export_csv (records : List PunchRow) : String :=
  joinSep ("\n") (headerLine :: (orderByTimestamp records).map serverCsvLine)

/-- Does `csv.writer` (QUOTE_MINIMAL) quote this field?  Exactly when it
contains the delimiter, the quote character, or a line-terminator char. -/
def needsQuoting (s : String) : Bool :=
  s.data.any (fun c => c == ',' || c == '"' || c == '\r' || c == '\n')

/-- Double every quote character (csv escaping inside a quoted field). -/
def escQuotes : List Char → List Char
  | [] => []
  | c :: cs => if c == '"' then c :: c :: escQuotes cs else c :: escQuotes cs

/-- One field as `csv.writer` (QUOTE_MINIMAL dialect) emits it. -/
def csvWriteField (s : String) : String :=
  if needsQuoting s then String.mk ('"' :: (escQuotes s.data ++ ['"'])) else s

/-- The `\r\n` row terminator of the default csv dialect. -/
def crlf : String := "\r\n"

/-- One row as `csv.writer.writerow` emits it. -/
def csvWriteRow (cells : List String) : String :=
  joinSep (",") (cells.map csvWriteField) ++ crlf

/-- `app.py` `export_csv`'s CSV text: `csv.writer` rows (header first, then
one row per record in `ORDER BY timestamp` order). -/
def app_export_csv (records : List PunchRow) : String :=
  joinAll (csvWriteRow headerCells ::
    (orderByTimestamp records).map (fun r => csvWriteRow (csvCells r)))

/-!
### Password hashing (external capability)

`app.py` delegates hashing to werkzeug's `generate_password_hash` /
`check_password_hash` (salted PBKDF2 with a constant-time digest
comparison).  The spec treats "password-hashing algorithm internals" as an
external capability, so the pair is modelled abstractly by an injective
tagging whose verification recomputes the tag: `check_password_hash
(generate_password_hash p) q` succeeds exactly when `q = p`, which is the
library's documented contract. -/
def generate_password_hash (password : String) : String :=
  "pbkdf2-sha256-hash:" ++ password

/-- Verification against a stored hash (see `generate_password_hash`). -/
def check_password_hash (hash password : String) : Bool :=
  hash == "pbkdf2-sha256-hash:" ++ password

/-- The method by which a login handler compares the submitted password,
read off the comparison expression in its source: `server.py` line 225
(`password == admin_password`) versus `app.py` line 120
(`check_password_hash(ADMIN_PASSWORD_HASH, password)`). -/
inductive ComparisonMethod where
  | rawStringEquality : ComparisonMethod
  | hashedComparison : ComparisonMethod
deriving DecidableEq, Repr

/-- Raw string equality of password and configured admin password — the
comparison the spec forbids ("never a raw string equality"). -/
def rawStringComparison (password adminPassword : String) : Bool :=
  password == adminPassword

/-!
### Request bodies
-/

/-- The result of `json.loads` on a `POST /punch` body: either a parse
failure or a JSON object of scalar fields (see `Json` for the scoping). -/
inductive JsonBody where
  | malformed : JsonBody
  | obj (fields : List (String × Json)) : JsonBody
deriving DecidableEq, Repr

/-- `params.get(key, [''])[0]` over a parsed form body (`parse_qs` yields a
map from keys to non-empty value lists); also models Flask's
`request.form.get(key)` for present fields, with a missing field read as the
empty string. -/
def paramsGet : List (String × List String) → String → String
  | [], _ => ""
  | (k, vs) :: rest, key => if k == key then vs.headD "" else paramsGet rest key

/-- An incoming HTTP request.  The body is carried in both parsed views
(`json.loads` for `/punch`, `parse_qs`/`request.form` for `/admin/login`);
the handler that runs reads the view its source parses.
`contentTypeIsJson` records whether the `Content-Type` header names JSON
(Flask's `request.is_json`), which `server.py` never consults. -/
structure HttpRequest where
  method : String
  path : String
  cookieHeader : Option String
  contentTypeIsJson : Bool
  jsonBody : JsonBody
  formBody : List (String × List String)

namespace Server

/-- The process state of `server.py`: the SQLite store and the module-level
`sessions` dictionary (a set of tokens, every registered token mapping to
`True`). -/
structure State where
  store : PunchStore
  sessions : List String
deriving DecidableEq, Repr

/-- `sessions[session_id] = True` (dictionary key insertion). -/
def sessionInsert (tok : String) (sessions : List String) : List String :=
  if sessions.contains tok then sessions else tok :: sessions

/-- `del sessions[session_id]` (the caller has checked membership). -/
def sessionRemove (tok : String) (sessions : List String) : List String :=
  sessions.erase tok

/-- The inner loop of `get_session_id`: first cookie starting with
`session_id=`, value taken after the first `=` (`cookie.split('=', 1)[1]`,
i.e. everything past the 11-character prefix). -/
def findSessionCookie : List (List Char) → Option String
  | [] => none
  | c :: rest =>
    if startsWithChars c ("session_id=").data then some (String.mk (c.drop 11))
    else findSessionCookie rest

/-- `AttendanceHandler.get_session_id`: split the `Cookie` header on `;`,
strip each part, return the first `session_id` value. -/
def get_session_id (cookieHeader : Option String) : Option String :=
  match cookieHeader with
  | none => none
  | some h => findSessionCookie ((splitOnChar (';') h.data).map trimSpaces)

/-- `AttendanceHandler.is_authenticated`:
`bool(session_id and sessions.get(session_id))` — a present, non-empty
token that is registered. -/
def is_authenticated (sessions : List String) (cookieHeader : Option String) :
    Bool :=
  match get_session_id cookieHeader with
  | none => false
  | some s => (!(s == "")) && sessions.contains s

/-- `AttendanceHandler.handle_punch`.  The body parse failure branch is the
`except` around `json.loads`; the single validation test is
`if not employee_id or action not in ('in', 'out')`. -/
def handle_punch (env : Env) (body : JsonBody) (st : State) :
    Response × State :=
  match body with
  | JsonBody.malformed =>
    (⟨400, RespBody.jsonMsg false ("Invalid JSON."), none, none, none⟩, st)
  | JsonBody.obj fields =>
    let employee_id := jsonGet fields ("employee_id")
    let action := jsonGet fields ("action")
    let latitude := jsonGet fields ("latitude")
    let longitude := jsonGet fields ("longitude")
    if !(truthy employee_id) ||
        (!(action == Json.str ("in")) && !(action == Json.str ("out"))) then
      (⟨400, RespBody.jsonMsg false ("Invalid payload."), none, none, none⟩, st)
    else
      (⟨200, RespBody.jsonMsg true ("Punch recorded successfully."),
        none, none, none⟩,
       ⟨insertPunch st.store employee_id action latitude longitude env.clock,
        st.sessions⟩)

/-- The `Set-Cookie` value sent on successful login. -/
def sessionCookie (tok : String) : String :=
  "session_id=" ++ tok ++ "; HttpOnly; Path=/"

/-- `AttendanceHandler.handle_login`: compare the form credentials against
the configured admin username/password (the password by raw string
equality); on success register the fresh uuid4 token and redirect to
`/admin` with the session cookie, on failure redirect back to the login
page with the generic `?error=1` marker. -/
def handle_login (env : Env) (params : List (String × List String))
    (st : State) : Response × State :=
  let username := paramsGet params ("username")
  let password := paramsGet params ("password")
  if username == env.adminUsername && password == env.adminPassword then
    (⟨302, RespBody.empty, some ("/admin"),
      some (sessionCookie env.freshToken), none⟩,
     ⟨st.store, sessionInsert env.freshToken st.sessions⟩)
  else
    (⟨302, RespBody.empty, some ("/admin/login?error=1"), none, none⟩, st)

/-- `AttendanceHandler.handle_logout`: drop the presented token if
registered, expire the cookie, redirect to the login page. -/
def handle_logout (cookieHeader : Option String) (st : State) :
    Response × State :=
  let sessions :=
    match get_session_id cookieHeader with
    | some s =>
      if st.sessions.contains s then sessionRemove s st.sessions
      else st.sessions
    | none => st.sessions
  (⟨302, RespBody.empty, some ("/admin/login"),
    some ("session_id=deleted; expires=Thu, 01 Jan 1970 00:00:00 GMT; Path=/"),
    none⟩,
   ⟨st.store, sessions⟩)

/-- One `<tr>` of the dashboard table (f-string build, `None` coordinates
shown as `-`). -/
def adminRowHtml (r : PunchRow) : String :=
  "<tr><td>" ++ natStr r.id ++ "</td><td>" ++ pyStr r.employee_id ++
  "</td><td>" ++ pyStr r.action ++ "</td><td>" ++ r.timestamp ++
  "</td><td>" ++ (if r.latitude == Json.null then "-" else pyStr r.latitude) ++
  "</td><td>" ++
  (if r.longitude == Json.null then "-" else pyStr r.longitude) ++
  "</td></tr>"

/-- `AttendanceHandler.serve_admin`: unauthenticated requests are redirected
to the login page; otherwise the records (descending by timestamp) are
injected into the template placeholder.  A missing template file raises in
the source; that is modelled as a 500. -/
def serve_admin (env : Env) (cookieHeader : Option String) (st : State) :
    Response × State :=
  if !(is_authenticated st.sessions cookieHeader) then
    (⟨302, RespBody.empty, some ("/admin/login"), none, none⟩, st)
  else
    match env.templates ("admin.html") with
    | none => (⟨500, RespBody.errorPage 500, none, none, none⟩, st)
    | some c =>
      (⟨200,
        RespBody.page (c.replace
          ("<!-- Records will be injected by the server -->")
          (joinAll ((orderByTimestampDesc st.store.records).map adminRowHtml))),
        none, none, none⟩, st)

/-- `AttendanceHandler.handle_export`: unauthenticated requests are
redirected to the login page; otherwise the CSV text is served as an
attachment named from the compact UTC timestamp. -/
def handle_export (env : Env) (cookieHeader : Option String) (st : State) :
    Response × State :=
  if !(is_authenticated st.sessions cookieHeader) then
    (⟨302, RespBody.empty, some ("/admin/login"), none, none⟩, st)
  else
    (⟨200,
      RespBody.csvFile (server_export_csv st.store.records)
        ("attendance_" ++ env.clockCompact ++ ".csv"),
      none, none, none⟩, st)

/-- `AttendanceHandler.serve_template`: 404 when the file is absent,
otherwise the file contents. -/
def serve_template (env : Env) (name : String) : Response :=
  match env.templates name with
  | none => ⟨404, RespBody.errorPage 404, none, none, none⟩
  | some c => ⟨200, RespBody.page c, none, none, none⟩

/-- `AttendanceHandler.do_GET`'s routing table. -/
def do_GET (env : Env) (req : HttpRequest) (st : State) : Response × State :=
  if startsWithChars req.path.data ("/static/").data then
    (env.staticResponse, st)
  else if req.path == "/" || req.path == "/index.html" then
    (serve_template env ("index.html"), st)
  else if req.path == "/admin/login" then
    (serve_template env ("admin_login.html"), st)
  else if req.path == "/admin" then serve_admin env req.cookieHeader st
  else if req.path == "/admin/logout" then handle_logout req.cookieHeader st
  else if req.path == "/admin/export" then handle_export env req.cookieHeader st
  else (⟨404, RespBody.errorPage 404, none, none, none⟩, st)

/-- `AttendanceHandler.do_POST`'s routing table. -/
def do_POST (env : Env) (req : HttpRequest) (st : State) : Response × State :=
  if req.path == "/punch" then handle_punch env req.jsonBody st
  else if req.path == "/admin/login" then handle_login env req.formBody st
  else (⟨404, RespBody.errorPage 404, none, none, none⟩, st)

/-- Method dispatch of `http.server` (anything but GET/POST gets the
`501 Unsupported method` of `BaseHTTPRequestHandler`). -/
def dispatch (env : Env) (req : HttpRequest) (st : State) : Response × State :=
  if req.method == "GET" then do_GET env req st
  else if req.method == "POST" then do_POST env req st
  else (⟨501, RespBody.errorPage 501, none, none, none⟩, st)

/-- A whole sequence of handled requests. -/
def runRequests (env : Env) : List HttpRequest → State → State
  | [], st => st
  | r :: rs, st => runRequests env rs (dispatch env r st).2

end Server

namespace App

/-- `app.py`'s `punch` view.  `request.get_json()` raises
`415 Unsupported Media Type` when the Content-Type does not name JSON and
`400 Bad Request` when the body does not parse (Flask's documented
`on_json_loading_failed` behaviour); the two validation tests are
`if not employee_id or not action` and `if action not in ['in', 'out']`. -/
def punch (env : Env) (contentTypeIsJson : Bool) (body : JsonBody)
    (st : PunchStore) : Response × PunchStore :=
  if !contentTypeIsJson then
    (⟨415, RespBody.errorPage 415, none, none, none⟩, st)
  else
    match body with
    | JsonBody.malformed => (⟨400, RespBody.errorPage 400, none, none, none⟩, st)
    | JsonBody.obj fields =>
      let employee_id := jsonGet fields ("employee_id")
      let action := jsonGet fields ("action")
      let latitude := jsonGet fields ("latitude")
      let longitude := jsonGet fields ("longitude")
      if !(truthy employee_id) || !(truthy action) then
        (⟨400, RespBody.jsonMsg false ("Employee ID and action are required."),
          none, none, none⟩, st)
      else if !(action == Json.str ("in")) && !(action == Json.str ("out")) then
        (⟨400, RespBody.jsonMsg false ("Invalid action specified."),
          none, none, none⟩, st)
      else
        (⟨200, RespBody.jsonMsg true ("Punch recorded successfully."),
          none, none, none⟩,
         insertPunch st employee_id action latitude longitude env.clock)

/-- `render_template(name)`: the Jinja environment is external; a missing
template raises `TemplateNotFound`, surfaced by Flask as a 500. -/
def render (env : Env) (name : String) : Response :=
  match env.templates name with
  | none => ⟨500, RespBody.errorPage 500, none, none, none⟩
  | some c => ⟨200, RespBody.page c, none, none, none⟩

/-- `app.py`'s `admin_login` view.  The Flask session is the per-client
signed cookie, modelled as the boolean `admin_logged_in` flag travelling
with the request.  A missing form field is read as the empty string (a
present-but-wrong field fails authentication identically; see the module
doc for the scoping). -/
def admin_login (env : Env) (method : String) (username password : String)
    (sess : Bool) : Response × Bool :=
  if method == "POST" then
    if username == env.adminUsername &&
        check_password_hash (generate_password_hash env.adminPassword)
          password then
      (⟨302, RespBody.empty, some ("/admin"), none, none⟩, true)
    else
      (⟨302, RespBody.empty, some ("/admin/login"), none,
        some ("Invalid credentials")⟩, sess)
  else (render env ("admin_login.html"), sess)

/-- `app.py`'s `admin_dashboard` view: redirect to the login page unless the
session flag is set, otherwise render the records descending by
timestamp. -/
def admin_dashboard (env : Env) (sess : Bool) (st : PunchStore) : Response :=
  if !sess then ⟨302, RespBody.empty, some ("/admin/login"), none, none⟩
  else
    ⟨200, RespBody.page (env.renderAdmin (orderByTimestampDesc st.records)),
      none, none, none⟩

/-- `app.py`'s `admin_logout` view: clear the flag, redirect to login. -/
def admin_logout : Response × Bool :=
  (⟨302, RespBody.empty, some ("/admin/login"), none, none⟩, false)

/-- `app.py`'s `export_csv` view: redirect to the login page unless the
session flag is set, otherwise the `csv.writer` output as an attachment. -/
def export_csv (env : Env) (sess : Bool) (st : PunchStore) : Response :=
  if !sess then ⟨302, RespBody.empty, some ("/admin/login"), none, none⟩
  else
    ⟨200,
      RespBody.csvFile (app_export_csv st.records)
        ("attendance_" ++ env.clockCompact ++ ".csv"),
      none, none, none⟩

/-- A 405 Method Not Allowed (Flask, for a known path with wrong method). -/
def methodNotAllowed : Response := ⟨405, RespBody.errorPage 405, none, none, none⟩

/-- Flask's routing of `app.py` (the decorated routes; unknown paths 404,
known paths with a method outside the declared set 405). -/
def dispatch (env : Env) (req : HttpRequest) (sess : Bool) (st : PunchStore) :
    Response × Bool × PunchStore :=
  if req.path == "/" then
    if req.method == "GET" then (render env ("index.html"), sess, st)
    else (methodNotAllowed, sess, st)
  else if req.path == "/punch" then
    if req.method == "POST" then
      let r := punch env req.contentTypeIsJson req.jsonBody st
      (r.1, sess, r.2)
    else (methodNotAllowed, sess, st)
  else if req.path == "/admin/login" then
    if req.method == "GET" || req.method == "POST" then
      let r := admin_login env req.method (paramsGet req.formBody ("username"))
        (paramsGet req.formBody ("password")) sess
      (r.1, r.2, st)
    else (methodNotAllowed, sess, st)
  else if req.path == "/admin" then
    if req.method == "GET" then (admin_dashboard env sess st, sess, st)
    else (methodNotAllowed, sess, st)
  else if req.path == "/admin/logout" then
    if req.method == "GET" then (admin_logout.1, admin_logout.2, st)
    else (methodNotAllowed, sess, st)
  else if req.path == "/admin/export" then
    if req.method == "GET" then (export_csv env sess st, sess, st)
    else (methodNotAllowed, sess, st)
  else (⟨404, RespBody.errorPage 404, none, none, none⟩, sess, st)

/-- A whole sequence of handled requests (one client's session flag threaded
through). -/
def runRequests (env : Env) : List HttpRequest → Bool → PunchStore →
    Bool × PunchStore
  | [], sess, st => (sess, st)
  | r :: rs, sess, st =>
    let d := dispatch env r sess st
    runRequests env rs d.2.1 d.2.2

end App

/-- The password comparison `server.py`'s `handle_login` performs
(line 225: `password == admin_password`). -/
def Server.passwordCheck (password adminPassword : String) : Bool :=
  password == adminPassword

/-- The comparison method of `server.py`'s login, read off its source
expression `password == admin_password`. -/
def Server.loginComparisonMethod : ComparisonMethod :=
  ComparisonMethod.rawStringEquality

/-- The password comparison `app.py`'s `admin_login` performs (line 120:
`check_password_hash(ADMIN_PASSWORD_HASH, password)`). -/
def App.passwordCheck (adminPasswordHash password : String) : Bool :=
  check_password_hash adminPasswordHash password

/-- The comparison method of `app.py`'s login, read off its source
expression `check_password_hash(ADMIN_PASSWORD_HASH, password)`. -/
def App.loginComparisonMethod : ComparisonMethod :=
  ComparisonMethod.hashedComparison

/-!
### CSV parsing

"Parsing the CSV export back" (spec §8): a standard RFC-4180-style reader —
fields separated by commas, records by `\n` or `\r\n`, a field starting
with `"` read quoted with `""` as an escaped quote.  Defined from the
spec's words; used to state the round-trip claim.
-/

/-- Lexer mode of the CSV reader: inside an unquoted field, inside a quoted
field, just past a quote inside a quoted field (`closing`, where a second
quote is the `""` escape and a separator ends the field), or just past a
carriage return (`afterCR`, where a line feed completes the `\r\n` record
terminator). -/
inductive CsvMode where
  | unquoted : CsvMode
  | quoted : CsvMode
  | closing : CsvMode
  | afterCR : CsvMode
deriving DecidableEq, Repr

/-- The parser loop: one character consumed per step.  `cur` is the current
field, `row` the completed fields of the current record, `acc` the completed
records. -/
def csvAux : CsvMode → List Char → List Char → List (List Char) →
    List (List (List Char)) → List (List (List Char))
  | CsvMode.unquoted, [], cur, row, acc =>
    if cur.isEmpty && row.isEmpty then acc else acc ++ [row ++ [cur]]
  | CsvMode.quoted, [], cur, row, acc => acc ++ [row ++ [cur]]
  | CsvMode.closing, [], cur, row, acc => acc ++ [row ++ [cur]]
  | CsvMode.afterCR, [], cur, row, acc => acc ++ [row ++ [cur ++ ['\r']]]
  | CsvMode.unquoted, c :: rest, cur, row, acc =>
    if c = ',' then csvAux CsvMode.unquoted rest [] (row ++ [cur]) acc
    else if c = '\n' then
      csvAux CsvMode.unquoted rest [] [] (acc ++ [row ++ [cur]])
    else if c = '\r' then csvAux CsvMode.afterCR rest cur row acc
    else if c = '"' then
      if cur.isEmpty then csvAux CsvMode.quoted rest cur row acc
      else csvAux CsvMode.unquoted rest (cur ++ [c]) row acc
    else csvAux CsvMode.unquoted rest (cur ++ [c]) row acc
  | CsvMode.quoted, c :: rest, cur, row, acc =>
    if c = '"' then csvAux CsvMode.closing rest cur row acc
    else csvAux CsvMode.quoted rest (cur ++ [c]) row acc
  | CsvMode.closing, c :: rest, cur, row, acc =>
    if c = '"' then csvAux CsvMode.quoted rest (cur ++ [c]) row acc
    else if c = ',' then csvAux CsvMode.unquoted rest [] (row ++ [cur]) acc
    else if c = '\n' then
      csvAux CsvMode.unquoted rest [] [] (acc ++ [row ++ [cur]])
    else if c = '\r' then csvAux CsvMode.afterCR rest cur row acc
    else csvAux CsvMode.unquoted rest (cur ++ [c]) row acc
  | CsvMode.afterCR, c :: rest, cur, row, acc =>
    if c = '\n' then
      csvAux CsvMode.unquoted rest [] [] (acc ++ [row ++ [cur]])
    else if c = ',' then
      csvAux CsvMode.unquoted rest [] (row ++ [cur ++ ['\r']]) acc
    else if c = '\r' then csvAux CsvMode.afterCR rest (cur ++ ['\r']) row acc
    else csvAux CsvMode.unquoted rest (cur ++ ['\r', c]) row acc

/-- Parse a CSV document into its records of string fields. -/
def csvParse (s : String) : List (List String) :=
  (csvAux CsvMode.unquoted s.data [] [] []).map (fun row => row.map String.mk)

/-!
### The full JSON value domain (composites included) and parameter binding

`json.loads` also produces arrays and objects, both as field values and as
the top-level body.  The handlers validate such values by the same
truthiness test, but `sqlite3` parameter binding accepts only `None`,
booleans, numbers, strings (and bytes): a list or dict raises
`InterfaceError` inside `cur.execute`, before any row is inserted or
committed.  In `server.py` the `try` of `handle_punch` wraps only
`json.loads`, so the exception escapes the handler and `http.server` closes
the connection without sending a response; Flask turns the same exception
into a 500 response.  A well-formed body whose top-level value is not an
object likewise makes `data.get` raise `AttributeError` in both
implementations.  The scalar `Json` layer above is the restriction of this
one to the values that can actually reach the store
(see `handle_punch_full_ofScalar` and `punch_full_ofScalar`).
-/

/-- A JSON value as `json.loads` produces it, composites included. -/
inductive JsonFull where
  | null : JsonFull
  | bool (b : Bool) : JsonFull
  | num (q : Rat) : JsonFull
  | str (s : String) : JsonFull
  | arr (elems : List JsonFull) : JsonFull
  | obj (fields : List (String × JsonFull)) : JsonFull

/-- Python truthiness over the full domain: `None`, `False`, `0`, `""` and
empty containers are falsy, everything else (including any non-empty list
or dict) truthy. -/
def truthyFull : JsonFull → Bool
  | JsonFull.null => false
  | JsonFull.bool b => b
  | JsonFull.num q => !(q == 0)
  | JsonFull.str s => !(s == "")
  | JsonFull.arr l => !l.isEmpty
  | JsonFull.obj l => !l.isEmpty

/-- `data.get(key)` over the full domain. -/
def jsonGetFull : List (String × JsonFull) → String → JsonFull
  | [], _ => JsonFull.null
  | (k, v) :: rest, key => if k == key then v else jsonGetFull rest key

/-- Python `v == s` between a parsed JSON value and a string literal (the
membership test `action not in ('in', 'out')` compares by `==`): true
exactly for the equal string. -/
def isStrVal (v : JsonFull) (s : String) : Bool :=
  match v with
  | JsonFull.str t => t == s
  | _ => false

/-- Does `sqlite3` accept this value as a bound parameter?  Lists and
dicts raise `InterfaceError`; every scalar binds. -/
def sqliteBindable : JsonFull → Bool
  | JsonFull.arr _ => false
  | JsonFull.obj _ => false
  | _ => true

/-- The stored form of a bindable value (the composite cases are
unreachable behind the `sqliteBindable` guard — composites never reach the
store). -/
def toScalar : JsonFull → Json
  | JsonFull.null => Json.null
  | JsonFull.bool b => Json.bool b
  | JsonFull.num q => Json.num q
  | JsonFull.str s => Json.str s
  | JsonFull.arr _ => Json.null
  | JsonFull.obj _ => Json.null

/-- The embedding of the scalar layer into the full domain. -/
def ofScalar : Json → JsonFull
  | Json.null => JsonFull.null
  | Json.bool b => JsonFull.bool b
  | Json.num q => JsonFull.num q
  | Json.str s => JsonFull.str s

/-- `json.loads` on a `POST /punch` body over the full domain: a parse
failure, a well-formed body whose top-level value is not an object, or an
object. -/
inductive JsonBodyFull where
  | malformed : JsonBodyFull
  | nonObj : JsonBodyFull
  | obj (fields : List (String × JsonFull)) : JsonBodyFull

/-- `AttendanceHandler.handle_punch` over the full domain, including the
outcome of `cur.execute`'s parameter binding.  The response is `none` when
an uncaught exception (`AttributeError` at `data.get` on a non-object
body, `sqlite3.InterfaceError` on a composite bound value) escapes the
handler: all of these fire before `send_response`, so the connection is
closed with no HTTP response and no row committed. -/
def Server.handle_punch_full (env : Env) (body : JsonBodyFull)
    (st : Server.State) : Option Response × Server.State :=
  match body with
  | JsonBodyFull.malformed =>
    (some ⟨400, RespBody.jsonMsg false ("Invalid JSON."), none, none, none⟩,
     st)
  | JsonBodyFull.nonObj => (none, st)
  | JsonBodyFull.obj fields =>
    let employee_id := jsonGetFull fields ("employee_id")
    let action := jsonGetFull fields ("action")
    let latitude := jsonGetFull fields ("latitude")
    let longitude := jsonGetFull fields ("longitude")
    if !(truthyFull employee_id) ||
        (!(isStrVal action ("in")) && !(isStrVal action ("out"))) then
      (some ⟨400, RespBody.jsonMsg false ("Invalid payload."),
        none, none, none⟩, st)
    else if sqliteBindable employee_id && sqliteBindable action &&
        sqliteBindable latitude && sqliteBindable longitude then
      (some ⟨200, RespBody.jsonMsg true ("Punch recorded successfully."),
        none, none, none⟩,
       ⟨insertPunch st.store (toScalar employee_id) (toScalar action)
          (toScalar latitude) (toScalar longitude) env.clock,
        st.sessions⟩)
    else (none, st)

/-- `app.py`'s `punch` over the full domain: Flask converts the uncaught
`AttributeError` (non-object body) and `sqlite3.InterfaceError` (composite
bound value) into 500 responses; no row is inserted in either case. -/
def App.punch_full (env : Env) (contentTypeIsJson : Bool)
    (body : JsonBodyFull) (st : PunchStore) : Response × PunchStore :=
  if !contentTypeIsJson then
    (⟨415, RespBody.errorPage 415, none, none, none⟩, st)
  else
    match body with
    | JsonBodyFull.malformed =>
      (⟨400, RespBody.errorPage 400, none, none, none⟩, st)
    | JsonBodyFull.nonObj =>
      (⟨500, RespBody.errorPage 500, none, none, none⟩, st)
    | JsonBodyFull.obj fields =>
      let employee_id := jsonGetFull fields ("employee_id")
      let action := jsonGetFull fields ("action")
      let latitude := jsonGetFull fields ("latitude")
      let longitude := jsonGetFull fields ("longitude")
      if !(truthyFull employee_id) || !(truthyFull action) then
        (⟨400, RespBody.jsonMsg false ("Employee ID and action are required."),
          none, none, none⟩, st)
      else if !(isStrVal action ("in")) && !(isStrVal action ("out")) then
        (⟨400, RespBody.jsonMsg false ("Invalid action specified."),
          none, none, none⟩, st)
      else if sqliteBindable employee_id && sqliteBindable action &&
          sqliteBindable latitude && sqliteBindable longitude then
        (⟨200, RespBody.jsonMsg true ("Punch recorded successfully."),
          none, none, none⟩,
         insertPunch st (toScalar employee_id) (toScalar action)
           (toScalar latitude) (toScalar longitude) env.clock)
      else (⟨500, RespBody.errorPage 500, none, none, none⟩, st)

/-!
### Concrete instances used by the witnesses
-/

/-- A concrete environment for witness instantiations. -/
def testEnv : Env :=
  ⟨"admin", "admin123", "2024-01-01T00:00:00", "20240101000000", "token-1",
   fun _ => none, fun _ => "", ⟨404, RespBody.errorPage 404, none, none, none⟩⟩

/-- A body failing validation (empty employee id). -/
def badFields : List (String × Json) := [("employee_id", Json.str (""))]

/-- A body passing validation. -/
def goodFields : List (String × Json) :=
  [("employee_id", Json.str ("E1")), ("action", Json.str ("in")),
   ("latitude", Json.num (mkRat 3 2)), ("longitude", Json.num (mkRat 5 2))]

/-- The initial server state (empty store, no sessions). -/
def initState : Server.State := ⟨emptyStore, []⟩


/-- The order the export rows satisfy: ascending timestamps, ties broken by
the (insertion-order) id. -/
def csvOrder (a b : PunchRow) : Prop :=
  strLe a.timestamp b.timestamp = true ∧
  (a.timestamp = b.timestamp → a.id < b.id)

/-!
### Vocabulary for the CSV round-trip statements
-/

/-- A run of characters free of the CSV metacharacters (delimiter, quote,
and the line-terminator characters). -/
def CleanChars (cs : List Char) : Prop :=
  ∀ c ∈ cs, c ≠ ',' ∧ c ≠ '"' ∧ c ≠ '\n' ∧ c ≠ '\r'

/-- A field string free of CSV metacharacters. -/
def CleanField (s : String) : Prop := CleanChars s.data

instance (cs : List Char) : Decidable (CleanChars cs) := by
  unfold CleanChars
  infer_instance

instance (s : String) : Decidable (CleanField s) := by
  unfold CleanField
  infer_instance

/-- Character-list join with a single-character separator (the skeleton of
both a comma-joined row and a newline-joined document). -/
def joinCharSep (sep : Char) : List (List Char) → List Char
  | [] => []
  | [x] => x
  | x :: xs => x ++ sep :: joinCharSep sep xs

/-- The last of the fields `f :: fs` (recursion-friendly form). -/
def lastCF (f : List Char) : List (List Char) → List Char
  | [] => f
  | g :: gs => lastCF g gs

/-- All fields of `f :: fs` but the last (recursion-friendly form). -/
def initCF (f : List Char) : List (List Char) → List (List Char)
  | [] => []
  | g :: gs => f :: initCF g gs

/-- `csvWriteField` at the character-list level. -/
def writeFieldChars (f : List Char) : List Char :=
  if f.any (fun c => c == ',' || c == '"' || c == '\r' || c == '\n') then
    '"' :: (escQuotes f ++ ['"'])
  else f


/-!
## Theorems

### General-purpose lemmas
-/

theorem strAppend_cancel_left {s t u : String} (h : s ++ t = s ++ u) : t = u := by
  have hd : (s ++ t).data = (s ++ u).data := congrArg String.data h
  have h2 : s.data ++ t.data = s.data ++ u.data := by
    cases s; cases t; cases u; simpa using hd
  have h3 := List.append_cancel_left h2
  cases t; cases u; simp_all

theorem contains_iff_mem {l : List String} {a : String} :
    l.contains a = true ↔ a ∈ l := List.elem_iff

/-- The modelled hashing capability verifies exactly the hashed password. -/
theorem check_gen_iff (p a : String) :
    check_password_hash (generate_password_hash a) p = true ↔ p = a := by
  simp only [check_password_hash, generate_password_hash, beq_iff_eq]
  constructor
  · intro h
    exact (strAppend_cancel_left h).symm
  · intro h
    rw [h]

/-!
### C1 — password comparison method
-/

/-- C1 counterexample: the claim says the password is never compared via a
raw string equality against the configured admin password, but `server.py`'s
`handle_login` performs exactly the raw comparison `password ==
admin_password`: its comparison method is `rawStringEquality` and its check
is definitionally the raw string comparison function. -/
theorem C1_counterexample :
    Server.loginComparisonMethod = ComparisonMethod.rawStringEquality ∧
    Server.passwordCheck = rawStringComparison :=
  ⟨rfl, rfl⟩

/-- C1 (amended): only the Flask implementation (`app.py`) checks the
password via the hashed comparison (`check_password_hash`); the base-HTTP
implementation (`server.py`) compares by raw string equality.  Both checks
accept exactly the configured admin password. -/
theorem C1_amended :
    App.loginComparisonMethod = ComparisonMethod.hashedComparison ∧
    Server.loginComparisonMethod = ComparisonMethod.rawStringEquality ∧
    (∀ p a : String,
      App.passwordCheck (generate_password_hash a) p = true ↔ p = a) ∧
    (∀ p a : String, Server.passwordCheck p a = true ↔ p = a) := by
  refine ⟨rfl, rfl, ?_, ?_⟩
  · intro p a
    exact check_gen_iff p a
  · intro p a
    simp [Server.passwordCheck]

/-!
### C2 — punch validation: 400 and no mutation on failure, 200 and insert on
success
-/

/-- C2: a `POST /punch` object body with an empty (or absent) `employee_id`,
or an `action` outside `{in, out}`, yields HTTP 400 with a
`{success: false, message}` payload and leaves the attendance store (and the
whole state) unchanged, in both implementations; a body passing validation
yields HTTP 200 with `{success: true, message}` and the store with the one
inserted record. -/
theorem C2_thm (env : Env) (fields : List (String × Json)) (st : Server.State)
    (stA : PunchStore) :
    (jsonGet fields ("employee_id") = Json.str ("") ∨
     jsonGet fields ("employee_id") = Json.null ∨
     (jsonGet fields ("action") ≠ Json.str ("in") ∧
      jsonGet fields ("action") ≠ Json.str ("out")) →
     (Server.handle_punch env (JsonBody.obj fields) st).1.status = 400 ∧
     (∃ m, (Server.handle_punch env (JsonBody.obj fields) st).1.body =
       RespBody.jsonMsg false m) ∧
     (Server.handle_punch env (JsonBody.obj fields) st).2 = st ∧
     (App.punch env true (JsonBody.obj fields) stA).1.status = 400 ∧
     (∃ m, (App.punch env true (JsonBody.obj fields) stA).1.body =
       RespBody.jsonMsg false m) ∧
     (App.punch env true (JsonBody.obj fields) stA).2 = stA) ∧
    (truthy (jsonGet fields ("employee_id")) = true ∧
     (jsonGet fields ("action") = Json.str ("in") ∨
      jsonGet fields ("action") = Json.str ("out")) →
     (Server.handle_punch env (JsonBody.obj fields) st).1.status = 200 ∧
     (Server.handle_punch env (JsonBody.obj fields) st).1.body =
       RespBody.jsonMsg true ("Punch recorded successfully.") ∧
     (Server.handle_punch env (JsonBody.obj fields) st).2.store =
       insertPunch st.store (jsonGet fields ("employee_id"))
         (jsonGet fields ("action")) (jsonGet fields ("latitude"))
         (jsonGet fields ("longitude")) env.clock ∧
     (App.punch env true (JsonBody.obj fields) stA).1.status = 200 ∧
     (App.punch env true (JsonBody.obj fields) stA).1.body =
       RespBody.jsonMsg true ("Punch recorded successfully.") ∧
     (App.punch env true (JsonBody.obj fields) stA).2 =
       insertPunch stA (jsonGet fields ("employee_id"))
         (jsonGet fields ("action")) (jsonGet fields ("latitude"))
         (jsonGet fields ("longitude")) env.clock) := by
  constructor
  · intro h
    rcases h with h1 | h1 | ⟨h1, h2⟩
    · simp [Server.handle_punch, App.punch, h1, truthy]
    · simp [Server.handle_punch, App.punch, h1, truthy]
    · cases hte : truthy (jsonGet fields ("employee_id")) <;>
        cases hta : truthy (jsonGet fields ("action")) <;>
        simp [Server.handle_punch, App.punch, h1, h2, hte, hta]
  · intro h
    have htin : truthy (Json.str ("in")) = true := by decide
    have htout : truthy (Json.str ("out")) = true := by decide
    rcases h with ⟨h1, h2 | h2⟩ <;>
      simp [Server.handle_punch, App.punch, h1, h2, htin, htout]

/-- Shared helper: the success branch of `server.py`'s `handle_punch`. -/
theorem Server.handle_punch_success (env : Env)
    (fields : List (String × Json)) (st : Server.State)
    (hemp : truthy (jsonGet fields ("employee_id")) = true)
    (hact : jsonGet fields ("action") = Json.str ("in") ∨
      jsonGet fields ("action") = Json.str ("out")) :
    Server.handle_punch env (JsonBody.obj fields) st =
      (⟨200, RespBody.jsonMsg true ("Punch recorded successfully."),
        none, none, none⟩,
       ⟨insertPunch st.store (jsonGet fields ("employee_id"))
          (jsonGet fields ("action")) (jsonGet fields ("latitude"))
          (jsonGet fields ("longitude")) env.clock,
        st.sessions⟩) := by
  rcases hact with h2 | h2 <;> simp [Server.handle_punch, hemp, h2]

/-- Shared helper: the success branch of `app.py`'s `punch`. -/
theorem App.punch_success (env : Env) (fields : List (String × Json))
    (stA : PunchStore)
    (hemp : truthy (jsonGet fields ("employee_id")) = true)
    (hact : jsonGet fields ("action") = Json.str ("in") ∨
      jsonGet fields ("action") = Json.str ("out")) :
    App.punch env true (JsonBody.obj fields) stA =
      (⟨200, RespBody.jsonMsg true ("Punch recorded successfully."),
        none, none, none⟩,
       insertPunch stA (jsonGet fields ("employee_id"))
         (jsonGet fields ("action")) (jsonGet fields ("latitude"))
         (jsonGet fields ("longitude")) env.clock) := by
  have htin : truthy (Json.str ("in")) = true := by decide
  have htout : truthy (Json.str ("out")) = true := by decide
  rcases hact with h2 | h2 <;> simp [App.punch, hemp, h2, htin, htout]

/-- C2 witness: the empty-employee body and the valid body, instantiated at
the initial state. -/
theorem C2_witness :
    (jsonGet badFields ("employee_id") = Json.str ("") ∨
     jsonGet badFields ("employee_id") = Json.null ∨
     (jsonGet badFields ("action") ≠ Json.str ("in") ∧
      jsonGet badFields ("action") ≠ Json.str ("out"))) ∧
    ((Server.handle_punch testEnv (JsonBody.obj badFields) initState).1.status
        = 400 ∧
     (∃ m,
       (Server.handle_punch testEnv (JsonBody.obj badFields) initState).1.body
        = RespBody.jsonMsg false m) ∧
     (Server.handle_punch testEnv (JsonBody.obj badFields) initState).2 =
       initState ∧
     (App.punch testEnv true (JsonBody.obj badFields) emptyStore).1.status
        = 400 ∧
     (∃ m, (App.punch testEnv true (JsonBody.obj badFields) emptyStore).1.body
        = RespBody.jsonMsg false m) ∧
     (App.punch testEnv true (JsonBody.obj badFields) emptyStore).2 =
       emptyStore) ∧
    (truthy (jsonGet goodFields ("employee_id")) = true ∧
     (jsonGet goodFields ("action") = Json.str ("in") ∨
      jsonGet goodFields ("action") = Json.str ("out"))) ∧
    ((Server.handle_punch testEnv (JsonBody.obj goodFields) initState).1.status
        = 200 ∧
     (Server.handle_punch testEnv (JsonBody.obj goodFields) initState).1.body =
       RespBody.jsonMsg true ("Punch recorded successfully.") ∧
     (Server.handle_punch testEnv (JsonBody.obj goodFields) initState).2.store
        = insertPunch initState.store (jsonGet goodFields ("employee_id"))
            (jsonGet goodFields ("action")) (jsonGet goodFields ("latitude"))
            (jsonGet goodFields ("longitude")) testEnv.clock ∧
     (App.punch testEnv true (JsonBody.obj goodFields) emptyStore).1.status
        = 200 ∧
     (App.punch testEnv true (JsonBody.obj goodFields) emptyStore).1.body =
       RespBody.jsonMsg true ("Punch recorded successfully.") ∧
     (App.punch testEnv true (JsonBody.obj goodFields) emptyStore).2 =
       insertPunch emptyStore (jsonGet goodFields ("employee_id"))
         (jsonGet goodFields ("action")) (jsonGet goodFields ("latitude"))
         (jsonGet goodFields ("longitude")) testEnv.clock) :=
  ⟨by decide,
   (C2_thm testEnv badFields initState emptyStore).1 (by decide),
   by decide,
   (C2_thm testEnv goodFields initState emptyStore).2 (by decide)⟩

/-!
### C3 — a valid punch appends exactly one server-stamped record with a
fresh, strictly larger id
-/

/-- C3: after a valid punch submission (in either implementation, starting
from a store whose ids are all below the id counter) the store holds exactly
one additional record; its `employee_id`, `action`, `latitude` and
`longitude` are the submitted values; its id and timestamp are the
server-assigned counter value and clock reading (whatever the body may have
contained); the new id is strictly greater than every previously assigned
id and was never used before; and the id invariant is preserved, so ids
stay unique and are never reused. -/
theorem C3_thm (env : Env) (fields : List (String × Json)) (st : Server.State)
    (stA : PunchStore)
    (hwfS : ∀ r ∈ st.store.records, r.id < st.store.nextId)
    (hwfA : ∀ r ∈ stA.records, r.id < stA.nextId)
    (hemp : truthy (jsonGet fields ("employee_id")) = true)
    (hact : jsonGet fields ("action") = Json.str ("in") ∨
      jsonGet fields ("action") = Json.str ("out")) :
    ((Server.handle_punch env (JsonBody.obj fields) st).2.store.records =
       st.store.records ++
         [⟨st.store.nextId, jsonGet fields ("employee_id"),
           jsonGet fields ("action"), env.clock, jsonGet fields ("latitude"),
           jsonGet fields ("longitude")⟩] ∧
     (Server.handle_punch env (JsonBody.obj fields) st).2.store.nextId =
       st.store.nextId + 1 ∧
     st.store.nextId ∉ st.store.records.map PunchRow.id ∧
     (∀ r ∈ st.store.records, r.id < st.store.nextId) ∧
     (∀ r ∈ (Server.handle_punch env (JsonBody.obj fields) st).2.store.records,
       r.id <
         (Server.handle_punch env (JsonBody.obj fields) st).2.store.nextId)) ∧
    ((App.punch env true (JsonBody.obj fields) stA).2.records =
       stA.records ++
         [⟨stA.nextId, jsonGet fields ("employee_id"),
           jsonGet fields ("action"), env.clock, jsonGet fields ("latitude"),
           jsonGet fields ("longitude")⟩] ∧
     (App.punch env true (JsonBody.obj fields) stA).2.nextId =
       stA.nextId + 1 ∧
     stA.nextId ∉ stA.records.map PunchRow.id ∧
     (∀ r ∈ stA.records, r.id < stA.nextId) ∧
     (∀ r ∈ (App.punch env true (JsonBody.obj fields) stA).2.records,
       r.id < (App.punch env true (JsonBody.obj fields) stA).2.nextId)) := by
  have hS := Server.handle_punch_success env fields st hemp hact
  have hA := App.punch_success env fields stA hemp hact
  rw [hS, hA]
  have freshS : st.store.nextId ∉ st.store.records.map PunchRow.id := by
    intro hmem
    rcases List.mem_map.1 hmem with ⟨r, hr, hid⟩
    have := hwfS r hr
    omega
  have freshA : stA.nextId ∉ stA.records.map PunchRow.id := by
    intro hmem
    rcases List.mem_map.1 hmem with ⟨r, hr, hid⟩
    have := hwfA r hr
    omega
  refine ⟨⟨rfl, rfl, freshS, hwfS, ?_⟩, rfl, rfl, freshA, hwfA, ?_⟩
  · intro r hr
    simp only [insertPunch, List.mem_append, List.mem_singleton] at hr ⊢
    rcases hr with hr | hr
    · have := hwfS r hr
      omega
    · rw [hr]
      exact Nat.lt_succ_self _
  · intro r hr
    simp only [insertPunch, List.mem_append, List.mem_singleton] at hr ⊢
    rcases hr with hr | hr
    · have := hwfA r hr
      omega
    · rw [hr]
      exact Nat.lt_succ_self _

/-- C3 witness: the valid body at the initial (empty, id counter 1)
state. -/
theorem C3_witness :
    ((∀ r ∈ initState.store.records, r.id < initState.store.nextId) ∧
     (∀ r ∈ emptyStore.records, r.id < emptyStore.nextId) ∧
     truthy (jsonGet goodFields ("employee_id")) = true ∧
     (jsonGet goodFields ("action") = Json.str ("in") ∨
      jsonGet goodFields ("action") = Json.str ("out"))) ∧
    ((Server.handle_punch testEnv (JsonBody.obj goodFields)
        initState).2.store.records =
      initState.store.records ++
        [⟨initState.store.nextId, jsonGet goodFields ("employee_id"),
          jsonGet goodFields ("action"), testEnv.clock,
          jsonGet goodFields ("latitude"), jsonGet goodFields ("longitude")⟩] ∧
     (App.punch testEnv true (JsonBody.obj goodFields)
        emptyStore).2.nextId = emptyStore.nextId + 1) := by
  have h := C3_thm testEnv goodFields initState emptyStore (by decide)
    (by decide) (by decide) (by decide)
  exact ⟨⟨by decide, by decide, by decide, by decide⟩, h.1.1, h.2.2.1⟩

/-!
### C4 — login succeeds exactly on the configured credentials
-/

/-- C4: in both implementations a `POST /admin/login` succeeds — creating a
session entry (`sessions[token] = True`, resp. the Flask session flag) and
redirecting with the session cookie set — exactly when the submitted
username equals the configured admin username and the submitted password
matches the configured admin password; on any failing pair the session
state is unchanged and the response is the fixed redirect back to the login
form carrying only the generic error indicator (`?error=1`, resp. the
flashed `Invalid credentials`), independent of what was submitted. -/
theorem C4_thm (env : Env) (u p : String) (st : Server.State) (sess : Bool) :
    (u = env.adminUsername ∧ p = env.adminPassword →
      Server.handle_login env ([("username", [u]), ("password", [p])]) st =
        (⟨302, RespBody.empty, some ("/admin"),
          some (Server.sessionCookie env.freshToken), none⟩,
         ⟨st.store, Server.sessionInsert env.freshToken st.sessions⟩) ∧
      App.admin_login env ("POST") u p sess =
        (⟨302, RespBody.empty, some ("/admin"), none, none⟩, true)) ∧
    (¬(u = env.adminUsername ∧ p = env.adminPassword) →
      Server.handle_login env ([("username", [u]), ("password", [p])]) st =
        (⟨302, RespBody.empty, some ("/admin/login?error=1"), none, none⟩,
         st) ∧
      App.admin_login env ("POST") u p sess =
        (⟨302, RespBody.empty, some ("/admin/login"), none,
          some ("Invalid credentials")⟩, sess)) ∧
    ((Server.handle_login env ([("username", [u]), ("password", [p])])
        st).1.cookie = some (Server.sessionCookie env.freshToken) ↔
      u = env.adminUsername ∧ p = env.adminPassword) ∧
    ((App.admin_login env ("POST") u p sess).1.location = some ("/admin") ↔
      u = env.adminUsername ∧ p = env.adminPassword) := by
  have hu : paramsGet ([("username", [u]), ("password", [p])]) ("username")
      = u := by simp [paramsGet]
  have hp : paramsGet ([("username", [u]), ("password", [p])]) ("password")
      = p := by simp [paramsGet]
  by_cases hcred : u = env.adminUsername ∧ p = env.adminPassword
  · obtain ⟨h1, h2⟩ := hcred
    subst h1; subst h2
    have hchk : check_password_hash (generate_password_hash env.adminPassword)
        env.adminPassword = true := (check_gen_iff _ _).2 rfl
    refine ⟨fun _ => ?_, fun hn => absurd ⟨rfl, rfl⟩ hn, ?_, ?_⟩
    · constructor
      · simp [Server.handle_login, hu, hp]
      · simp [App.admin_login, hchk]
    · simp [Server.handle_login, hu, hp]
    · simp [App.admin_login, hchk]
  · have hcond : (u == env.adminUsername && p == env.adminPassword) = false := by
      rcases not_and_or.1 hcred with h | h
      · simp [beq_eq_false_iff_ne.2 h]
      · simp [beq_eq_false_iff_ne.2 h]
    have hchk : (u == env.adminUsername &&
        check_password_hash (generate_password_hash env.adminPassword) p)
          = false := by
      rcases not_and_or.1 hcred with h | h
      · simp [beq_eq_false_iff_ne.2 h]
      · have : check_password_hash (generate_password_hash env.adminPassword)
            p = false := by
          rcases hc : check_password_hash
            (generate_password_hash env.adminPassword) p with _ | _
          · rfl
          · exact absurd ((check_gen_iff _ _).1 hc) h
        simp [this]
    refine ⟨fun hy => absurd hy hcred, fun _ => ?_, ?_, ?_⟩
    · constructor
      · simp [Server.handle_login, hu, hp, hcond]
      · simp [App.admin_login, hchk]
    · simp [Server.handle_login, hu, hp, hcond, hcred]
    · simp [App.admin_login, hchk, hcred]

/-- C4 witness: the configured pair is accepted, a wrong password is
rejected with the session registry unchanged. -/
theorem C4_witness :
    ("admin" = testEnv.adminUsername ∧ "admin123" = testEnv.adminPassword) ∧
    (Server.handle_login testEnv
        ([("username", ["admin"]), ("password", ["admin123"])]) initState =
      (⟨302, RespBody.empty, some ("/admin"),
        some (Server.sessionCookie testEnv.freshToken), none⟩,
       ⟨initState.store,
        Server.sessionInsert testEnv.freshToken initState.sessions⟩) ∧
     App.admin_login testEnv ("POST") ("admin") ("admin123") false =
      (⟨302, RespBody.empty, some ("/admin"), none, none⟩, true)) ∧
    ¬("admin" = testEnv.adminUsername ∧ "wrong" = testEnv.adminPassword) ∧
    (Server.handle_login testEnv
        ([("username", ["admin"]), ("password", ["wrong"])]) initState =
      (⟨302, RespBody.empty, some ("/admin/login?error=1"), none, none⟩,
       initState) ∧
     App.admin_login testEnv ("POST") ("admin") ("wrong") false =
      (⟨302, RespBody.empty, some ("/admin/login"), none,
        some ("Invalid credentials")⟩, false)) :=
  ⟨by decide,
   (C4_thm testEnv ("admin") ("admin123") initState false).1 (by decide),
   by decide,
   ((C4_thm testEnv ("admin") ("wrong") initState false).2.1 (by decide))⟩

/-!
### C5 — unauthenticated admin paths redirect (302), never 401/403
-/

/-- C5: a GET request to `/admin` or `/admin/export` that carries no
registered session token (no cookie, or a token absent from the registry —
resp. an unset Flask session flag) is answered with an HTTP 302 redirect to
`/admin/login`, and never with a 401 or 403, in both implementations. -/
theorem C5_thm (env : Env) (req : HttpRequest) (st : Server.State)
    (sessA : Bool) (stA : PunchStore)
    (hmethod : req.method = "GET")
    (hpath : req.path = "/admin" ∨ req.path = "/admin/export")
    (hanon : ∀ tok, Server.get_session_id req.cookieHeader = some tok →
      tok ∉ st.sessions)
    (hsessA : sessA = false) :
    (Server.dispatch env req st).1.status = 302 ∧
    (Server.dispatch env req st).1.location = some ("/admin/login") ∧
    (Server.dispatch env req st).1.status ≠ 401 ∧
    (Server.dispatch env req st).1.status ≠ 403 ∧
    (App.dispatch env req sessA stA).1.status = 302 ∧
    (App.dispatch env req sessA stA).1.location = some ("/admin/login") ∧
    (App.dispatch env req sessA stA).1.status ≠ 401 ∧
    (App.dispatch env req sessA stA).1.status ≠ 403 := by
  have hauth : Server.is_authenticated st.sessions req.cookieHeader = false := by
    unfold Server.is_authenticated
    rcases hgs : Server.get_session_id req.cookieHeader with _ | s
    · rfl
    · have hmem : st.sessions.contains s = false := by
        rcases hc : st.sessions.contains s with _ | _
        · rfl
        · exact absurd (contains_iff_mem.1 hc) (hanon s hgs)
      simp only [hmem, Bool.and_false]
  subst hsessA
  rcases hpath with hpath | hpath
  · have h1 : startsWithChars ("/admin").data ("/static/").data = false := by
      decide
    constructor
    · simp [Server.dispatch, Server.do_GET, Server.serve_admin, hmethod,
        hpath, h1, hauth]
    · simp [Server.dispatch, Server.do_GET, Server.serve_admin, App.dispatch,
        App.admin_dashboard, hmethod, hpath, h1, hauth]
  · have h1 : startsWithChars ("/admin/export").data ("/static/").data
        = false := by decide
    constructor
    · simp [Server.dispatch, Server.do_GET, Server.handle_export, hmethod,
        hpath, h1, hauth]
    · simp [Server.dispatch, Server.do_GET, Server.handle_export, App.dispatch,
        App.export_csv, hmethod, hpath, h1, hauth]

/-- C5 witness: a cookieless GET of both paths at the initial state. -/
theorem C5_witness :
    ((⟨"GET", "/admin", none, false, JsonBody.malformed, []⟩ :
        HttpRequest).method = "GET" ∧
     (∀ tok, Server.get_session_id none = some tok →
        tok ∉ initState.sessions)) ∧
    (Server.dispatch testEnv
        (⟨"GET", "/admin", none, false, JsonBody.malformed, []⟩) initState
      ).1.status = 302 ∧
    (Server.dispatch testEnv
        (⟨"GET", "/admin", none, false, JsonBody.malformed, []⟩) initState
      ).1.location = some ("/admin/login") ∧
    (App.dispatch testEnv
        (⟨"GET", "/admin/export", none, false, JsonBody.malformed, []⟩)
        false emptyStore).1.status = 302 ∧
    (App.dispatch testEnv
        (⟨"GET", "/admin/export", none, false, JsonBody.malformed, []⟩)
        false emptyStore).1.location = some ("/admin/login") := by
  have h1 := C5_thm testEnv
    (⟨"GET", "/admin", none, false, JsonBody.malformed, []⟩) initState false
    emptyStore rfl (Or.inl rfl) (fun tok h => Option.noConfusion h) rfl
  have h2 := C5_thm testEnv
    (⟨"GET", "/admin/export", none, false, JsonBody.malformed, []⟩) initState
    false emptyStore rfl (Or.inr rfl) (fun tok h => Option.noConfusion h) rfl
  exact ⟨⟨rfl, fun tok h => Option.noConfusion h⟩, h1.1, h1.2.1,
    h2.2.2.2.2.1, h2.2.2.2.2.2.1⟩

/-!
### Order lemmas for `ORDER BY timestamp`
-/

theorem charsLe_refl (a : List Char) : charsLe a a = true := by
  induction a with
  | nil => rfl
  | cons c cs ih => simp [charsLe, ih]

theorem strLe_refl (a : String) : strLe a a = true := charsLe_refl a.data

theorem charsLe_trans {a b c : List Char} (h1 : charsLe a b = true)
    (h2 : charsLe b c = true) : charsLe a c = true := by
  induction a generalizing b c with
  | nil => rfl
  | cons x xs ih =>
    cases b with
    | nil => simp [charsLe] at h1
    | cons y ys =>
      cases c with
      | nil => simp [charsLe] at h2
      | cons z zs =>
        simp only [charsLe] at h1 h2 ⊢
        by_cases hxy : x = y
        · subst hxy
          by_cases hyz : x = z
          · subst hyz
            simp only [if_pos rfl] at h1 h2 ⊢
            exact ih (by simpa using h1) (by simpa using h2)
          · simp only [if_pos rfl, if_neg hyz] at h1 h2 ⊢
            exact h2
        · by_cases hyz : y = z
          · subst hyz
            simp only [if_neg hxy] at h1 ⊢
            exact h1
          · simp only [if_neg hxy] at h1
            simp only [if_neg hyz] at h2
            have hxz : x < z :=
              lt_trans (of_decide_eq_true h1) (of_decide_eq_true h2)
            have hne : x ≠ z := ne_of_lt hxz
            simp only [if_neg hne]
            exact decide_eq_true hxz

theorem strLe_trans {a b c : String} (h1 : strLe a b = true)
    (h2 : strLe b c = true) : strLe a c = true :=
  charsLe_trans h1 h2

theorem charsLe_total {a b : List Char} (h : charsLe a b = false) :
    charsLe b a = true := by
  induction a generalizing b with
  | nil => simp [charsLe] at h
  | cons x xs ih =>
    cases b with
    | nil => rfl
    | cons y ys =>
      simp only [charsLe] at h ⊢
      by_cases hxy : x = y
      · subst hxy
        simp only [if_pos rfl] at h ⊢
        exact ih h
      · simp only [if_neg hxy] at h
        have hne : y ≠ x := fun hyx => hxy hyx.symm
        have hnlt : ¬x < y := of_decide_eq_false h
        have hlt : y < x := by
          rcases lt_trichotomy x y with h' | h' | h'
          · exact absurd h' hnlt
          · exact absurd h' hxy
          · exact h'
        simp only [if_neg hne]
        exact decide_eq_true hlt

theorem strLe_total {a b : String} (h : strLe a b = false) :
    strLe b a = true := charsLe_total h

theorem strLe_false_ne {a b : String} (h : strLe a b = false) : b ≠ a := by
  intro hba
  subst hba
  rw [strLe_refl] at h
  exact Bool.true_eq_false.mp h

theorem mem_tsInsert {z r : PunchRow} {l : List PunchRow} :
    z ∈ tsInsert r l ↔ z = r ∨ z ∈ l := by
  induction l with
  | nil => simp [tsInsert]
  | cons y ys ih =>
    by_cases h : strLe r.timestamp y.timestamp = true
    · simp [tsInsert, h]
    · simp only [tsInsert, if_neg h, List.mem_cons, ih]
      tauto

theorem tsInsert_perm (r : PunchRow) (l : List PunchRow) :
    (tsInsert r l).Perm (r :: l) := by
  induction l with
  | nil => exact List.Perm.refl _
  | cons y ys ih =>
    by_cases h : strLe r.timestamp y.timestamp = true
    · simp [tsInsert, h]
    · simp only [tsInsert, if_neg h]
      exact (ih.cons y).trans (List.Perm.swap r y ys)

theorem orderByTimestamp_perm (l : List PunchRow) :
    (orderByTimestamp l).Perm l := by
  induction l with
  | nil => exact List.Perm.refl _
  | cons r rs ih =>
    exact (tsInsert_perm r (orderByTimestamp rs)).trans (ih.cons r)

theorem pairwise_tsInsert {r : PunchRow} {l : List PunchRow}
    (hl : l.Pairwise csvOrder) (hid : ∀ y ∈ l, r.id < y.id) :
    (tsInsert r l).Pairwise csvOrder := by
  induction l with
  | nil => simp [tsInsert]
  | cons y ys ih =>
    rcases List.pairwise_cons.1 hl with ⟨hy, hys⟩
    by_cases h : strLe r.timestamp y.timestamp = true
    · simp only [tsInsert, if_pos h]
      refine List.pairwise_cons.2 ⟨?_, hl⟩
      intro z hz
      rcases List.mem_cons.1 hz with hz | hz
      · subst hz
        exact ⟨h, fun _ => hid z (List.mem_cons_self _ _)⟩
      · refine ⟨strLe_trans h (hy z hz).1, fun _ =>
          hid z (List.mem_cons_of_mem _ hz)⟩
    · have h' : strLe r.timestamp y.timestamp = false := by
        rcases hb : strLe r.timestamp y.timestamp with _ | _
        · rfl
        · exact absurd hb h
      simp only [tsInsert, if_neg h]
      refine List.pairwise_cons.2 ⟨?_, ih hys
        (fun z hz => hid z (List.mem_cons_of_mem _ hz))⟩
      intro z hz
      rcases mem_tsInsert.1 hz with hz | hz
      · subst hz
        exact ⟨strLe_total h', fun heq => absurd heq (strLe_false_ne h')⟩
      · exact hy z hz

theorem pairwise_orderByTimestamp {l : List PunchRow}
    (hids : l.Pairwise (fun a b => a.id < b.id)) :
    (orderByTimestamp l).Pairwise csvOrder := by
  induction l with
  | nil => simp [orderByTimestamp]
  | cons r rs ih =>
    rcases List.pairwise_cons.1 hids with ⟨hr, hrs⟩
    refine pairwise_tsInsert (ih hrs) ?_
    intro y hy
    exact hr y ((orderByTimestamp_perm rs).mem_iff.1 hy)

/-!
### C9 — the store is append-only under every handled request
-/

/-- Helper: one dispatched request in `server.py` only ever appends to the
attendance records. -/
theorem server_dispatch_records (env : Env) (req : HttpRequest)
    (st : Server.State) :
    ∃ t, (Server.dispatch env req st).2.store.records =
      st.store.records ++ t := by
  unfold Server.dispatch Server.do_GET Server.do_POST Server.handle_punch
    Server.handle_login Server.handle_logout Server.serve_admin
    Server.handle_export
  dsimp only
  repeat' split
  all_goals first
    | exact ⟨[], (List.append_nil _).symm⟩
    | exact ⟨_, rfl⟩

/-- Helper: one dispatched request in `app.py` only ever appends to the
attendance records. -/
theorem app_dispatch_records (env : Env) (req : HttpRequest) (sess : Bool)
    (st : PunchStore) :
    ∃ t, (App.dispatch env req sess st).2.2.records = st.records ++ t := by
  unfold App.dispatch App.punch
  dsimp only
  repeat' split
  all_goals first
    | exact ⟨[], (List.append_nil _).symm⟩
    | exact ⟨_, rfl⟩

/-- C9: both implementations are append-only — after any single handled
request, and after any sequence of handled requests, the attendance records
are the previous records with some suffix appended, so every record present
before is still present, unchanged and in place, afterwards (no update or
delete ever occurs). -/
theorem C9_thm :
    (∀ (env : Env) (req : HttpRequest) (st : Server.State),
      ∃ t, (Server.dispatch env req st).2.store.records =
        st.store.records ++ t) ∧
    (∀ (env : Env) (reqs : List HttpRequest) (st : Server.State),
      ∃ t, (Server.runRequests env reqs st).store.records =
        st.store.records ++ t) ∧
    (∀ (env : Env) (req : HttpRequest) (sess : Bool) (st : PunchStore),
      ∃ t, (App.dispatch env req sess st).2.2.records = st.records ++ t) ∧
    (∀ (env : Env) (reqs : List HttpRequest) (sess : Bool) (st : PunchStore),
      ∃ t, (App.runRequests env reqs sess st).2.records = st.records ++ t) := by
  refine ⟨server_dispatch_records, ?_, app_dispatch_records, ?_⟩
  · intro env reqs
    induction reqs with
    | nil => exact fun st => ⟨[], (List.append_nil _).symm⟩
    | cons r rs ih =>
      intro st
      rcases server_dispatch_records env r st with ⟨t1, h1⟩
      rcases ih ((Server.dispatch env r st).2) with ⟨t2, h2⟩
      refine ⟨t1 ++ t2, ?_⟩
      show (Server.runRequests env rs (Server.dispatch env r st).2).store.records
        = st.store.records ++ (t1 ++ t2)
      rw [h2, h1, List.append_assoc]
  · intro env reqs
    induction reqs with
    | nil => exact fun sess st => ⟨[], (List.append_nil _).symm⟩
    | cons r rs ih =>
      intro sess st
      rcases app_dispatch_records env r sess st with ⟨t1, h1⟩
      rcases ih (App.dispatch env r sess st).2.1
        (App.dispatch env r sess st).2.2 with ⟨t2, h2⟩
      refine ⟨t1 ++ t2, ?_⟩
      show (App.runRequests env rs (App.dispatch env r sess st).2.1
        (App.dispatch env r sess st).2.2).2.records
        = st.records ++ (t1 ++ t2)
      rw [h2, h1, List.append_assoc]

/-!
### C6 — CSV export: fixed header, rows ascending by timestamp with ties by
id, absent coordinates as empty cells
-/

/-- C6: for any store whose ids increase in insertion order (the store
invariant), both CSV exports consist of exactly the fixed header row
followed by one row per record, the rows being the records sorted ascending
by timestamp with ties broken by insertion order (id) — a permutation of
the store satisfying `csvOrder` pairwise — and a record with an absent
(`NULL`) latitude or longitude renders that cell empty. -/
theorem C6_thm (records : List PunchRow)
    (hids : records.Pairwise (fun a b => a.id < b.id)) :
    (orderByTimestamp records).Perm records ∧
    (orderByTimestamp records).Pairwise csvOrder ∧
    server_export_csv records =
      joinSep ("\n") (headerLine ::
        (orderByTimestamp records).map serverCsvLine) ∧
    app_export_csv records =
      joinAll (csvWriteRow headerCells ::
        (orderByTimestamp records).map (fun r => csvWriteRow (csvCells r))) ∧
    renderCell Json.null = "" ∧
    (∀ r : PunchRow, r.latitude = Json.null → r.longitude = Json.null →
      csvCells r =
        [pyStr r.employee_id, pyStr r.action, r.timestamp, "", ""]) := by
  refine ⟨orderByTimestamp_perm records, pairwise_orderByTimestamp hids,
    rfl, rfl, rfl, ?_⟩
  intro r hlat hlon
  simp [csvCells, hlat, hlon, renderCell]

/-- C6 witness: two records submitted out of timestamp order are exported
sorted, with the second record's empty coordinate cells. -/
theorem C6_witness :
    ([⟨1, Json.str ("E1"), Json.str ("in"), "2024-01-02T08:00:00",
        Json.num (mkRat 3 2), Json.num (mkRat 5 2)⟩,
      ⟨2, Json.str ("E2"), Json.str ("out"), "2024-01-01T08:00:00",
        Json.null, Json.null⟩] :
        List PunchRow).Pairwise (fun a b => a.id < b.id) ∧
    (orderByTimestamp
      ([⟨1, Json.str ("E1"), Json.str ("in"), "2024-01-02T08:00:00",
          Json.num (mkRat 3 2), Json.num (mkRat 5 2)⟩,
        ⟨2, Json.str ("E2"), Json.str ("out"), "2024-01-01T08:00:00",
          Json.null, Json.null⟩])).Pairwise csvOrder ∧
    server_export_csv
      ([⟨1, Json.str ("E1"), Json.str ("in"), "2024-01-02T08:00:00",
          Json.num (mkRat 3 2), Json.num (mkRat 5 2)⟩,
        ⟨2, Json.str ("E2"), Json.str ("out"), "2024-01-01T08:00:00",
          Json.null, Json.null⟩]) =
      "Employee ID,Action,Timestamp (UTC),Latitude,Longitude\n" ++
      "E2,out,2024-01-01T08:00:00,,\n" ++
      "E1,in,2024-01-02T08:00:00,1.5,2.5" := by
  refine ⟨by decide, ?_, by decide⟩
  exact (C6_thm _ (by decide)).2.1


/-!
### CSV parser lemmas
-/

theorem strData_append (a b : String) : (a ++ b).data = a.data ++ b.data := by
  cases a; cases b; rfl

theorem strMk_data (s : String) : String.mk s.data = s := rfl

theorem joinSep_data (sep : String) (c : Char) (h : sep.data = [c]) :
    ∀ ss : List String,
      (joinSep sep ss).data = joinCharSep c (ss.map String.data)
  | [] => rfl
  | [x] => rfl
  | x :: y :: ys => by
    show (x ++ sep ++ joinSep sep (y :: ys)).data = _
    rw [strData_append, strData_append, h, joinSep_data sep c h (y :: ys)]
    show x.data ++ [c] ++ _ = x.data ++ c :: _
    rw [List.append_assoc, List.singleton_append, List.map_cons]

theorem joinAll_data : ∀ ss : List String,
    (joinAll ss).data = (ss.map String.data).flatten
  | [] => rfl
  | x :: xs => by
    show (x ++ joinAll xs).data = x.data ++ (xs.map String.data).flatten
    rw [strData_append, joinAll_data xs]

theorem csvWriteField_data (s : String) :
    (csvWriteField s).data = writeFieldChars s.data := by
  unfold csvWriteField writeFieldChars needsQuoting
  by_cases h : s.data.any (fun c => c == ',' || c == '"' || c == '\r' || c == '\n') = true
  · rw [if_pos h, if_pos h]
  · rw [if_neg h, if_neg h]

theorem initCF_append_lastCF : ∀ (fs : List (List Char)) (f : List Char),
    initCF f fs ++ [lastCF f fs] = f :: fs
  | [], f => rfl
  | g :: gs, f => by
    show (f :: initCF g gs) ++ [lastCF g gs] = f :: g :: gs
    rw [List.cons_append, initCF_append_lastCF gs g]

theorem cleanConsume : ∀ (f : List Char) (cs cur : List Char)
    (row : List (List Char)) (acc : List (List (List Char))),
    CleanChars f →
    csvAux CsvMode.unquoted (f ++ cs) cur row acc =
      csvAux CsvMode.unquoted cs (cur ++ f) row acc
  | [], cs, cur, row, acc, _ => by
    rw [List.nil_append, List.append_nil]
  | c :: f', cs, cur, row, acc, hf => by
    rcases hf c (List.mem_cons_self c f') with ⟨h1, h2, h3, h4⟩
    have hf' : CleanChars f' := fun d hd => hf d (List.mem_cons_of_mem c hd)
    show csvAux CsvMode.unquoted (c :: (f' ++ cs)) cur row acc = _
    simp only [csvAux, if_neg h1, if_neg h3, if_neg h4, if_neg h2]
    rw [cleanConsume f' cs (cur ++ [c]) row acc hf', List.append_assoc,
      List.singleton_append]

theorem rowConsumeClean : ∀ (fs : List (List Char)) (f : List Char)
    (cs : List Char) (row : List (List Char)) (acc : List (List (List Char))),
    CleanChars f → (∀ g ∈ fs, CleanChars g) →
    csvAux CsvMode.unquoted (joinCharSep (',') (f :: fs) ++ cs) [] row acc =
      csvAux CsvMode.unquoted cs (lastCF f fs) (row ++ initCF f fs) acc
  | [], f, cs, row, acc, hf, _ => by
    show csvAux CsvMode.unquoted (f ++ cs) [] row acc =
      csvAux CsvMode.unquoted cs f (row ++ []) acc
    rw [cleanConsume f cs [] row acc hf, List.nil_append, List.append_nil]
  | g :: gs, f, cs, row, acc, hf, hfs => by
    show csvAux CsvMode.unquoted
      ((f ++ (',') :: joinCharSep (',') (g :: gs)) ++ cs) [] row acc = _
    rw [List.append_assoc, cleanConsume f _ [] row acc hf, List.nil_append]
    show csvAux CsvMode.unquoted
      ((',') :: (joinCharSep (',') (g :: gs) ++ cs)) f row acc = _
    simp only [csvAux, if_pos rfl]
    rw [rowConsumeClean gs g cs (row ++ [f]) acc
      (hfs g (List.mem_cons_self g gs))
      (fun d hd => hfs d (List.mem_cons_of_mem g hd)),
      List.append_assoc, List.singleton_append]
    rfl

theorem docConsumeNL : ∀ (rows : List (List (List Char)))
    (acc : List (List (List Char))),
    (∀ row ∈ rows, 2 ≤ row.length ∧ ∀ g ∈ row, CleanChars g) →
    csvAux CsvMode.unquoted
      (joinCharSep ('\n') (rows.map (joinCharSep (',')))) [] [] acc =
      acc ++ rows
  | [], acc, _ => by
    show csvAux CsvMode.unquoted [] [] [] acc = acc ++ []
    rw [List.append_nil]
    rfl
  | [row], acc, h => by
    obtain ⟨hlen, hclean⟩ := h row (List.mem_cons_self row [])
    match row, hlen with
    | f :: g :: gs, _ =>
      show csvAux CsvMode.unquoted
        (joinCharSep (',') (f :: g :: gs)) [] [] acc = _
      rw [← List.append_nil (joinCharSep (',') (f :: g :: gs)),
        rowConsumeClean (g :: gs) f [] [] acc
          (hclean f (List.mem_cons_self f _))
          (fun d hd => hclean d (List.mem_cons_of_mem f hd)),
        List.nil_append]
      show csvAux CsvMode.unquoted [] (lastCF g gs) (f :: initCF g gs) acc = _
      simp only [csvAux, List.isEmpty_cons, Bool.and_false, if_neg]
      rw [List.cons_append, initCF_append_lastCF gs g]
      simp
  | row :: row2 :: rest, acc, h => by
    obtain ⟨hlen, hclean⟩ := h row (List.mem_cons_self row _)
    match row, hlen with
    | f :: fs, _ =>
      show csvAux CsvMode.unquoted
        ((joinCharSep (',') (f :: fs) ++
          ('\n') :: joinCharSep ('\n') ((row2 :: rest).map (joinCharSep (',')))))
        [] [] acc = _
      rw [rowConsumeClean fs f _ [] acc
        (hclean f (List.mem_cons_self f fs))
        (fun d hd => hclean d (List.mem_cons_of_mem f hd)),
        List.nil_append]
      show csvAux CsvMode.unquoted
        (('\n') :: joinCharSep ('\n') ((row2 :: rest).map (joinCharSep (','))))
        (lastCF f fs) (initCF f fs) acc = _
      simp only [csvAux]
      rw [if_neg (show ¬(('\n' : Char) = ',') from by decide),
        if_pos trivial,
        docConsumeNL (row2 :: rest) (acc ++ [initCF f fs ++ [lastCF f fs]])
          (fun r hr => h r (List.mem_cons_of_mem (f :: fs) hr)),
        initCF_append_lastCF fs f, List.append_assoc, List.singleton_append]

theorem mapMk_mapData (ss : List String) :
    (ss.map String.data).map String.mk = ss := by
  rw [List.map_map]
  have h : (String.mk ∘ String.data) = id := by
    funext s
    rfl
  rw [h, List.map_id]

theorem csvParse_server_export (records : List PunchRow)
    (hclean : ∀ r ∈ records, ∀ s ∈ csvCells r, CleanField s) :
    csvParse (server_export_csv records) =
      headerCells :: (orderByTimestamp records).map csvCells := by
  have hline : ∀ r : PunchRow, (serverCsvLine r).data =
      joinCharSep (',') ((csvCells r).map String.data) :=
    fun r => joinSep_data (",") (',') rfl (csvCells r)
  have hdoc : (server_export_csv records).data =
      joinCharSep ('\n')
        ((headerCells.map String.data ::
          (orderByTimestamp records).map
            (fun r => (csvCells r).map String.data)).map (joinCharSep (','))) := by
    show (joinSep ("\n")
      (headerLine :: (orderByTimestamp records).map serverCsvLine)).data = _
    rw [joinSep_data ("\n") ('\n') rfl]
    simp only [List.map_cons, List.map_map]
    have hHeader : headerLine.data =
        joinCharSep (',') (headerCells.map String.data) := by decide
    have hMap : List.map (String.data ∘ serverCsvLine)
        (orderByTimestamp records) =
        List.map ((joinCharSep (',')) ∘ fun r => (csvCells r).map String.data)
          (orderByTimestamp records) :=
      List.map_congr_left (fun r _ => hline r)
    rw [hHeader, hMap]
  have hconds : ∀ row ∈ headerCells.map String.data ::
      (orderByTimestamp records).map (fun r => (csvCells r).map String.data),
      2 ≤ row.length ∧ ∀ g ∈ row, CleanChars g := by
    intro row hrow
    rcases List.mem_cons.1 hrow with hrow | hrow
    · subst hrow
      exact ⟨by decide, by decide⟩
    · rcases List.mem_map.1 hrow with ⟨r, hr, hrow⟩
      subst hrow
      have hrm : r ∈ records := (orderByTimestamp_perm records).mem_iff.1 hr
      constructor
      · rw [List.length_map, show (csvCells r).length = 5 from rfl]
        decide
      · intro g hg
        rcases List.mem_map.1 hg with ⟨s, hs, hg⟩
        subst hg
        exact hclean r hrm s hs
  show (csvAux CsvMode.unquoted (server_export_csv records).data [] [] []).map
    (fun row => row.map String.mk) = _
  rw [hdoc, docConsumeNL _ [] hconds, List.nil_append, List.map_cons,
    mapMk_mapData, List.map_map]
  exact congrArg (headerCells :: ·)
    (List.map_congr_left (fun r _ => mapMk_mapData (csvCells r)))

theorem quotedConsume : ∀ (f cs cur : List Char) (row : List (List Char))
    (acc : List (List (List Char))),
    csvAux CsvMode.quoted (escQuotes f ++ ('"') :: cs) cur row acc =
      csvAux CsvMode.closing cs (cur ++ f) row acc
  | [], cs, cur, row, acc => by
    show csvAux CsvMode.quoted (('"') :: cs) cur row acc = _
    simp [csvAux]
  | c :: f', cs, cur, row, acc => by
    by_cases hc : c = '"'
    · subst hc
      have he : escQuotes (('"') :: f') = ('"') :: ('"') :: escQuotes f' := by
        simp [escQuotes]
      rw [he]
      show csvAux CsvMode.quoted
        (('"') :: (('"') :: (escQuotes f' ++ ('"') :: cs))) cur row acc = _
      simp only [csvAux, if_pos rfl]
      rw [quotedConsume f' cs (cur ++ [('"')]) row acc, List.append_assoc,
        List.singleton_append]
      simp
    · have he : escQuotes (c :: f') = c :: escQuotes f' := by
        simp [escQuotes, hc]
      rw [he]
      show csvAux CsvMode.quoted
        (c :: (escQuotes f' ++ ('"') :: cs)) cur row acc = _
      simp only [csvAux, if_neg hc]
      rw [quotedConsume f' cs (cur ++ [c]) row acc, List.append_assoc,
        List.singleton_append]

theorem closingStep : ∀ (cs cur : List Char) (row : List (List Char))
    (acc : List (List (List Char))),
    (cs = [] → row ≠ []) →
    (∀ c cs', cs = c :: cs' → c = ',' ∨ c = '\r') →
    csvAux CsvMode.closing cs cur row acc =
      csvAux CsvMode.unquoted cs cur row acc
  | [], cur, row, acc, hnil, _ => by
    cases row with
    | nil => exact absurd rfl (hnil rfl)
    | cons a as => simp [csvAux]
  | c :: cs', cur, row, acc, _, hhead => by
    rcases hhead c cs' rfl with hc | hc <;> subst hc <;> simp [csvAux]

theorem fieldConsume (f cs : List Char) (row : List (List Char))
    (acc : List (List (List Char)))
    (hnil : cs = [] → row ≠ [])
    (hhead : ∀ c cs', cs = c :: cs' → c = ',' ∨ c = '\r') :
    csvAux CsvMode.unquoted (writeFieldChars f ++ cs) [] row acc =
      csvAux CsvMode.unquoted cs f row acc := by
  unfold writeFieldChars
  by_cases hq :
      f.any (fun c => c == ',' || c == '"' || c == '\r' || c == '\n') = true
  · rw [if_pos hq]
    show csvAux CsvMode.unquoted
      (('"') :: ((escQuotes f ++ [('"')]) ++ cs)) [] row acc = _
    rw [List.append_assoc, List.singleton_append]
    simp only [csvAux]
    rw [if_neg (show ¬(('"' : Char) = ',') from by decide),
      if_neg (show ¬(('"' : Char) = '\n') from by decide),
      if_neg (show ¬(('"' : Char) = '\r') from by decide)]
    rw [if_pos trivial,
      if_pos (show ([] : List Char).isEmpty = true from rfl)]
    rw [quotedConsume f cs [] row acc, List.nil_append,
      closingStep cs f row acc hnil hhead]
  · rw [if_neg hq]
    have hf : CleanChars f := by
      intro c hc
      have := List.any_eq_false.1 (Bool.not_eq_true _ ▸ hq) c hc
      simp at this
      obtain ⟨⟨⟨h1, h2⟩, h3⟩, h4⟩ := this
      exact ⟨h1, h2, h4, h3⟩
    rw [cleanConsume f cs [] row acc hf, List.nil_append]

theorem rowConsumeApp : ∀ (fs : List (List Char)) (f : List Char)
    (cs : List Char) (row : List (List Char)) (acc : List (List (List Char))),
    cs ≠ [] →
    (∀ c cs', cs = c :: cs' → c = '\r') →
    csvAux CsvMode.unquoted
      (joinCharSep (',') ((f :: fs).map writeFieldChars) ++ cs) [] row acc =
      csvAux CsvMode.unquoted cs (lastCF f fs) (row ++ initCF f fs) acc
  | [], f, cs, row, acc, hne, hhead => by
    show csvAux CsvMode.unquoted (writeFieldChars f ++ cs) [] row acc = _
    rw [fieldConsume f cs row acc (fun h => absurd h hne)
      (fun c cs' h => Or.inr (hhead c cs' h))]
    simp [lastCF, initCF]
  | g :: gs, f, cs, row, acc, hne, hhead => by
    show csvAux CsvMode.unquoted
      ((writeFieldChars f ++
        (',') :: joinCharSep (',') ((g :: gs).map writeFieldChars)) ++ cs)
      [] row acc = _
    rw [List.append_assoc, List.cons_append]
    have hfc := fieldConsume f
      ((',') :: (joinCharSep (',') ((g :: gs).map writeFieldChars) ++ cs))
      row acc (fun h => List.noConfusion h)
      (fun c cs' h => Or.inl (by injection h with h1 h2; exact h1.symm))
    rw [hfc]
    show csvAux CsvMode.unquoted
      ((',') :: (joinCharSep (',') ((g :: gs).map writeFieldChars) ++ cs))
      f row acc = _
    simp only [csvAux, if_pos rfl]
    rw [rowConsumeApp gs g cs (row ++ [f]) acc hne hhead, List.append_assoc,
      List.singleton_append]
    rfl

theorem docConsumeCRLF : ∀ (rows : List (List (List Char)))
    (acc : List (List (List Char))),
    (∀ row ∈ rows, row ≠ []) →
    csvAux CsvMode.unquoted
      ((rows.map (fun row =>
        joinCharSep (',') (row.map writeFieldChars) ++ ['\r', '\n'])).flatten)
      [] [] acc = acc ++ rows
  | [], acc, _ => by
    show csvAux CsvMode.unquoted [] [] [] acc = acc ++ []
    rw [List.append_nil]
    rfl
  | row :: rest, acc, h => by
    match row, h row (List.mem_cons_self row rest) with
    | f :: fs, _ =>
      show csvAux CsvMode.unquoted
        ((joinCharSep (',') ((f :: fs).map writeFieldChars) ++ ['\r', '\n']) ++
          (rest.map (fun row =>
            joinCharSep (',') (row.map writeFieldChars) ++
              ['\r', '\n'])).flatten)
        [] [] acc = _
      rw [List.append_assoc,
        rowConsumeApp fs f _ [] acc (fun hh => List.noConfusion hh)
          (fun c cs' hh => by injection hh with h1 h2; exact h1.symm)]
      show csvAux CsvMode.unquoted
        (('\r') :: (('\n') :: (rest.map (fun row =>
          joinCharSep (',') (row.map writeFieldChars) ++
            ['\r', '\n'])).flatten))
        (lastCF f fs) (initCF f fs) acc = _
      simp only [csvAux]
      rw [if_pos trivial, if_pos trivial]
      rw [docConsumeCRLF rest (acc ++ [initCF f fs ++ [lastCF f fs]])
        (fun r hr => h r (List.mem_cons_of_mem (f :: fs) hr))]
      rw [initCF_append_lastCF fs f, List.append_assoc, List.singleton_append]
      simp

theorem csvWriteRow_data (cells : List String) :
    (csvWriteRow cells).data =
      joinCharSep (',') ((cells.map String.data).map writeFieldChars) ++
        ['\r', '\n'] := by
  show (joinSep (",") (cells.map csvWriteField) ++ crlf).data = _
  rw [strData_append, joinSep_data (",") (',') rfl, List.map_map,
    List.map_map]
  have hcomp : (String.data ∘ csvWriteField) = (writeFieldChars ∘ String.data) :=
    funext (fun s => csvWriteField_data s)
  rw [hcomp]
  rfl

theorem csvParse_app_export (records : List PunchRow) :
    csvParse (app_export_csv records) =
      headerCells :: (orderByTimestamp records).map csvCells := by
  have hdoc : (app_export_csv records).data =
      ((((headerCells.map String.data) ::
        (orderByTimestamp records).map
          (fun r => (csvCells r).map String.data)).map
        (fun row =>
          joinCharSep (',') (row.map writeFieldChars) ++ ['\r', '\n'])).flatten) := by
    show (joinAll (csvWriteRow headerCells ::
      (orderByTimestamp records).map (fun r => csvWriteRow (csvCells r)))).data = _
    rw [joinAll_data]
    simp only [List.map_cons, List.map_map]
    have hHead := csvWriteRow_data headerCells
    have hTail : List.map (String.data ∘ fun r => csvWriteRow (csvCells r))
        (orderByTimestamp records) =
        List.map ((fun row =>
          joinCharSep (',') (row.map writeFieldChars) ++ ['\r', '\n']) ∘
          fun r => (csvCells r).map String.data)
          (orderByTimestamp records) :=
      List.map_congr_left (fun r _ => csvWriteRow_data (csvCells r))
    rw [hHead, hTail]
    simp [List.map_map]
  have hconds : ∀ row ∈ (headerCells.map String.data) ::
      (orderByTimestamp records).map (fun r => (csvCells r).map String.data),
      row ≠ [] := by
    intro row hrow
    rcases List.mem_cons.1 hrow with hrow | hrow
    · subst hrow
      decide
    · rcases List.mem_map.1 hrow with ⟨r, _, hrow⟩
      subst hrow
      show (csvCells r).map String.data ≠ []
      rw [show csvCells r = [pyStr r.employee_id, pyStr r.action, r.timestamp,
        renderCell r.latitude, renderCell r.longitude] from rfl]
      simp
  show (csvAux CsvMode.unquoted (app_export_csv records).data [] [] []).map
    (fun row => row.map String.mk) = _
  rw [hdoc, docConsumeCRLF _ [] hconds, List.nil_append, List.map_cons,
    mapMk_mapData, List.map_map]
  exact congrArg (headerCells :: ·)
    (List.map_congr_left (fun r _ => mapMk_mapData (csvCells r)))

/-!
### C7 — CSV round-trip
-/

/-- C7 counterexample: the claim promises the round-trip "including
employee_ids containing CSV metacharacters such as commas", but
`server.py`'s export does no quoting or escaping: for a store holding one
record with employee_id `a,b`, parsing the export back does not yield the
record's field contents — the employee id splits into two fields. -/
theorem C7_counterexample :
    csvParse (server_export_csv
      ([⟨1, Json.str ("a,b"), Json.str ("in"), "2024-01-01T00:00:00",
        Json.null, Json.null⟩])) ≠
      headerCells :: (orderByTimestamp
        ([⟨1, Json.str ("a,b"), Json.str ("in"), "2024-01-01T00:00:00",
          Json.null, Json.null⟩])).map csvCells ∧
    csvParse (server_export_csv
      ([⟨1, Json.str ("a,b"), Json.str ("in"), "2024-01-01T00:00:00",
        Json.null, Json.null⟩])) =
      [headerCells, ["a", "b", "in", "2024-01-01T00:00:00", "", ""]] := by
  constructor
  · decide
  · decide

/-- C7 (amended): parsing the CSV export back yields exactly the field
contents of `ListAll(ascending)` — the header plus, per record in timestamp
order, its employee_id, action, timestamp and coordinates (absent
coordinates as empty fields) — for the Flask (`csv.writer`) export for all
field contents including commas, quotes and newlines; for the base-HTTP
(`server.py`) export this holds only when every rendered field is free of
CSV metacharacters. -/
theorem C7_amended (records : List PunchRow) :
    ((∀ r ∈ records, ∀ s ∈ csvCells r, CleanField s) →
      csvParse (server_export_csv records) =
        headerCells :: (orderByTimestamp records).map csvCells) ∧
    csvParse (app_export_csv records) =
      headerCells :: (orderByTimestamp records).map csvCells :=
  ⟨fun h => csvParse_server_export records h, csvParse_app_export records⟩

/-- C7 witness: a metacharacter-free store round-trips through the
base-HTTP export, and a store with a comma-laden employee id round-trips
through the Flask export. -/
theorem C7_witness :
    (∀ r ∈ ([⟨1, Json.str ("E1"), Json.str ("in"), "T1", Json.null,
        Json.null⟩] : List PunchRow), ∀ s ∈ csvCells r, CleanField s) ∧
    csvParse (server_export_csv
      ([⟨1, Json.str ("E1"), Json.str ("in"), "T1", Json.null,
        Json.null⟩])) =
      headerCells :: (orderByTimestamp
        ([⟨1, Json.str ("E1"), Json.str ("in"), "T1", Json.null,
          Json.null⟩])).map csvCells ∧
    csvParse (app_export_csv
      ([⟨1, Json.str ("a,b"), Json.str ("in"), "T1", Json.null,
        Json.null⟩])) =
      headerCells :: (orderByTimestamp
        ([⟨1, Json.str ("a,b"), Json.str ("in"), "T1", Json.null,
          Json.null⟩])).map csvCells :=
  ⟨by decide,
   (C7_amended ([⟨1, Json.str ("E1"), Json.str ("in"), "T1", Json.null,
     Json.null⟩])).1 (by decide),
   (C7_amended ([⟨1, Json.str ("a,b"), Json.str ("in"), "T1", Json.null,
     Json.null⟩])).2⟩

/-!
### C8 — equivalence of the two implementations
-/

/-- C8 counterexample: the two implementations are not functionally
identical.  For the same `POST /punch` request — a well-formed JSON object
body sent with a non-JSON `Content-Type` — the Flask implementation rejects
it (415, via `request.get_json()`) without touching the store, while the
base-HTTP implementation, which never consults the `Content-Type` header,
accepts it (200) and inserts a record. -/
theorem C8_counterexample :
    (App.punch testEnv false (JsonBody.obj goodFields) emptyStore).1.status
      = 415 ∧
    (App.punch testEnv false (JsonBody.obj goodFields) emptyStore).2 =
      emptyStore ∧
    (Server.handle_punch testEnv (JsonBody.obj goodFields) initState).1.status
      = 200 ∧
    (Server.handle_punch testEnv (JsonBody.obj goodFields)
      initState).2.store.records ≠ initState.store.records := by
  refine ⟨rfl, rfl, ?_, ?_⟩
  · decide
  · decide

/-- C1 witness: both checks at the configured password. -/
theorem C1_witness :
    App.passwordCheck (generate_password_hash ("admin123")) ("admin123")
      = true ∧
    Server.passwordCheck ("admin123") ("admin123") = true :=
  ⟨(C1_amended.2.2.1 ("admin123") ("admin123")).2 rfl,
   (C1_amended.2.2.2 ("admin123") ("admin123")).2 rfl⟩

/-!
### Full-domain lemmas (composites and parameter binding)
-/

theorem isStrVal_eq {v : JsonFull} {s : String} (h : isStrVal v s = true) :
    v = JsonFull.str s := by
  cases v with
  | str t =>
    simp only [isStrVal, beq_iff_eq] at h
    rw [h]
  | null => simp [isStrVal] at h
  | bool b => simp [isStrVal] at h
  | num q => simp [isStrVal] at h
  | arr l => simp [isStrVal] at h
  | obj l => simp [isStrVal] at h

theorem truthyFull_ofScalar (v : Json) : truthyFull (ofScalar v) = truthy v := by
  cases v <;> rfl

theorem sqliteBindable_ofScalar (v : Json) :
    sqliteBindable (ofScalar v) = true := by
  cases v <;> rfl

theorem toScalar_ofScalar (v : Json) : toScalar (ofScalar v) = v := by
  cases v <;> rfl

theorem isStrVal_ofScalar (v : Json) (s : String) :
    isStrVal (ofScalar v) s = (v == Json.str s) := by
  cases v <;> simp [isStrVal, ofScalar]

theorem jsonGetFull_ofScalar : ∀ (fields : List (String × Json)) (key : String),
    jsonGetFull (fields.map (fun kv => (kv.1, ofScalar kv.2))) key =
      ofScalar (jsonGet fields key)
  | [], _ => rfl
  | (k, v) :: rest, key => by
    simp only [List.map_cons, jsonGetFull, jsonGet]
    by_cases h : (k == key) = true
    · rw [if_pos h, if_pos h]
    · rw [if_neg h, if_neg h, jsonGetFull_ofScalar rest key]

/-- On scalar-field object bodies the full-domain embedding of
`handle_punch` coincides with the scalar one: binding always succeeds. -/
theorem handle_punch_full_ofScalar (env : Env) (fields : List (String × Json))
    (st : Server.State) :
    Server.handle_punch_full env
      (JsonBodyFull.obj (fields.map (fun kv => (kv.1, ofScalar kv.2)))) st =
      (some (Server.handle_punch env (JsonBody.obj fields) st).1,
       (Server.handle_punch env (JsonBody.obj fields) st).2) := by
  cases hcond : (!(truthy (jsonGet fields ("employee_id"))) ||
      (!(jsonGet fields ("action") == Json.str ("in")) &&
       !(jsonGet fields ("action") == Json.str ("out")))) <;>
    simp [Server.handle_punch_full, Server.handle_punch, jsonGetFull_ofScalar,
      truthyFull_ofScalar, isStrVal_ofScalar, sqliteBindable_ofScalar,
      toScalar_ofScalar, hcond]

/-- On scalar-field object bodies the full-domain embedding of `punch`
coincides with the scalar one. -/
theorem punch_full_ofScalar (env : Env) (ct : Bool)
    (fields : List (String × Json)) (st : PunchStore) :
    App.punch_full env ct
      (JsonBodyFull.obj (fields.map (fun kv => (kv.1, ofScalar kv.2)))) st =
      App.punch env ct (JsonBody.obj fields) st := by
  cases ct
  · rfl
  · cases h1 : (!(truthy (jsonGet fields ("employee_id"))) ||
        !(truthy (jsonGet fields ("action")))) <;>
      cases h2 : (!(jsonGet fields ("action") == Json.str ("in")) &&
        !(jsonGet fields ("action") == Json.str ("out"))) <;>
      simp [App.punch_full, App.punch, jsonGetFull_ofScalar,
        truthyFull_ofScalar, isStrVal_ofScalar, sqliteBindable_ofScalar,
        toScalar_ofScalar, h1, h2]

/-!
### C10 — truthiness validation, scalar binding
-/

/-- C10 counterexample: the claim says any truthy JSON value for
`employee_id` passes validation and is inserted, and that
latitude/longitude of any JSON type are stored — but a composite value,
though truthy (validation indeed passes: neither handler answers 400),
raises `sqlite3.InterfaceError` at parameter binding: nothing is inserted,
`server.py` sends no response at all and `app.py` answers 500.  Shown both
for an array `employee_id` and for an array `latitude`. -/
theorem C10_counterexample :
    truthyFull (JsonFull.arr [JsonFull.str ("E1")]) = true ∧
    (Server.handle_punch_full testEnv (JsonBodyFull.obj
      ([("employee_id", JsonFull.arr [JsonFull.str ("E1")]),
        ("action", JsonFull.str ("in"))])) initState).1 = none ∧
    (Server.handle_punch_full testEnv (JsonBodyFull.obj
      ([("employee_id", JsonFull.arr [JsonFull.str ("E1")]),
        ("action", JsonFull.str ("in"))])) initState).2 = initState ∧
    (App.punch_full testEnv true (JsonBodyFull.obj
      ([("employee_id", JsonFull.arr [JsonFull.str ("E1")]),
        ("action", JsonFull.str ("in"))])) emptyStore).1.status = 500 ∧
    (App.punch_full testEnv true (JsonBodyFull.obj
      ([("employee_id", JsonFull.arr [JsonFull.str ("E1")]),
        ("action", JsonFull.str ("in"))])) emptyStore).2 = emptyStore ∧
    (Server.handle_punch_full testEnv (JsonBodyFull.obj
      ([("employee_id", JsonFull.str ("E1")), ("action", JsonFull.str ("in")),
        ("latitude", JsonFull.arr [JsonFull.num (1 : Rat)])])) initState).1 =
      none ∧
    (App.punch_full testEnv true (JsonBodyFull.obj
      ([("employee_id", JsonFull.str ("E1")), ("action", JsonFull.str ("in")),
        ("latitude", JsonFull.arr [JsonFull.num (1 : Rat)])]))
      emptyStore).1.status = 500 ∧
    (App.punch_full testEnv true (JsonBodyFull.obj
      ([("employee_id", JsonFull.str ("E1")), ("action", JsonFull.str ("in")),
        ("latitude", JsonFull.arr [JsonFull.num (1 : Rat)])]))
      emptyStore).2 = emptyStore := by
  refine ⟨rfl, rfl, rfl, rfl, rfl, rfl, rfl, rfl⟩

/-- C10 (amended): the punch handlers validate `employee_id` only by Python
truthiness, not by type: any falsy value (empty string, 0, `false`, `null`,
missing) is rejected with HTTP 400 and nothing is stored, whatever the
action; any truthy scalar value (a number or `true` as much as a non-empty
string) with a valid action passes validation and is inserted exactly as
submitted, with scalar latitude/longitude of any type stored without
validation; but a composite (array/object) value also passes the
truthiness validation and then fails at `sqlite3` parameter binding —
nothing is inserted, the Flask implementation answers 500 and the
base-HTTP one sends no response. -/
theorem C10_thm (env : Env) (fields : List (String × JsonFull))
    (st : Server.State) (stA : PunchStore) :
    (truthyFull (jsonGetFull fields ("employee_id")) = false →
      (Server.handle_punch_full env (JsonBodyFull.obj fields) st).1 =
        some ⟨400, RespBody.jsonMsg false ("Invalid payload."),
          none, none, none⟩ ∧
      (Server.handle_punch_full env (JsonBodyFull.obj fields) st).2 = st ∧
      (App.punch_full env true (JsonBodyFull.obj fields) stA).1.status
        = 400 ∧
      (App.punch_full env true (JsonBodyFull.obj fields) stA).2 = stA) ∧
    (truthyFull (jsonGetFull fields ("employee_id")) = true →
     (isStrVal (jsonGetFull fields ("action")) ("in") = true ∨
      isStrVal (jsonGetFull fields ("action")) ("out") = true) →
     sqliteBindable (jsonGetFull fields ("employee_id")) = true →
     sqliteBindable (jsonGetFull fields ("latitude")) = true →
     sqliteBindable (jsonGetFull fields ("longitude")) = true →
      (Server.handle_punch_full env (JsonBodyFull.obj fields) st).1 =
        some ⟨200, RespBody.jsonMsg true ("Punch recorded successfully."),
          none, none, none⟩ ∧
      (Server.handle_punch_full env (JsonBodyFull.obj fields) st).2.store =
        insertPunch st.store
          (toScalar (jsonGetFull fields ("employee_id")))
          (toScalar (jsonGetFull fields ("action")))
          (toScalar (jsonGetFull fields ("latitude")))
          (toScalar (jsonGetFull fields ("longitude"))) env.clock ∧
      (App.punch_full env true (JsonBodyFull.obj fields) stA).1.status
        = 200 ∧
      (App.punch_full env true (JsonBodyFull.obj fields) stA).2 =
        insertPunch stA
          (toScalar (jsonGetFull fields ("employee_id")))
          (toScalar (jsonGetFull fields ("action")))
          (toScalar (jsonGetFull fields ("latitude")))
          (toScalar (jsonGetFull fields ("longitude"))) env.clock) ∧
    (truthyFull (jsonGetFull fields ("employee_id")) = true →
     (isStrVal (jsonGetFull fields ("action")) ("in") = true ∨
      isStrVal (jsonGetFull fields ("action")) ("out") = true) →
     (sqliteBindable (jsonGetFull fields ("employee_id")) = false ∨
      sqliteBindable (jsonGetFull fields ("latitude")) = false ∨
      sqliteBindable (jsonGetFull fields ("longitude")) = false) →
      (Server.handle_punch_full env (JsonBodyFull.obj fields) st).1 = none ∧
      (Server.handle_punch_full env (JsonBodyFull.obj fields) st).2 = st ∧
      (App.punch_full env true (JsonBodyFull.obj fields) stA).1.status
        = 500 ∧
      (App.punch_full env true (JsonBodyFull.obj fields) stA).2 = stA) := by
  refine ⟨?_, ?_, ?_⟩
  · intro h
    simp [Server.handle_punch_full, App.punch_full, h]
  · intro hemp hact hb1 hb3 hb4
    have t1 : truthyFull (JsonFull.str ("in")) = true := by decide
    have t2 : truthyFull (JsonFull.str ("out")) = true := by decide
    have i11 : isStrVal (JsonFull.str ("in")) ("in") = true := by decide
    have i12 : isStrVal (JsonFull.str ("in")) ("out") = false := by decide
    have i21 : isStrVal (JsonFull.str ("out")) ("in") = false := by decide
    have i22 : isStrVal (JsonFull.str ("out")) ("out") = true := by decide
    have b1 : sqliteBindable (JsonFull.str ("in")) = true := rfl
    have b2 : sqliteBindable (JsonFull.str ("out")) = true := rfl
    rcases hact with hin | hin
    · have ha := isStrVal_eq hin
      simp [Server.handle_punch_full, App.punch_full, hemp, ha, hb1, hb3,
        hb4, t1, i11, i12, b1]
    · have ha := isStrVal_eq hin
      simp [Server.handle_punch_full, App.punch_full, hemp, ha, hb1, hb3,
        hb4, t2, i21, i22, b2]
  · intro hemp hact hnb
    have t1 : truthyFull (JsonFull.str ("in")) = true := by decide
    have t2 : truthyFull (JsonFull.str ("out")) = true := by decide
    have i11 : isStrVal (JsonFull.str ("in")) ("in") = true := by decide
    have i12 : isStrVal (JsonFull.str ("in")) ("out") = false := by decide
    have i21 : isStrVal (JsonFull.str ("out")) ("in") = false := by decide
    have i22 : isStrVal (JsonFull.str ("out")) ("out") = true := by decide
    have b1 : sqliteBindable (JsonFull.str ("in")) = true := rfl
    have b2 : sqliteBindable (JsonFull.str ("out")) = true := rfl
    rcases hact with hin | hin
    · have ha := isStrVal_eq hin
      rcases hnb with h | h | h <;>
        simp [Server.handle_punch_full, App.punch_full, hemp, ha, h, t1,
          i11, i12, b1]
    · have ha := isStrVal_eq hin
      rcases hnb with h | h | h <;>
        simp [Server.handle_punch_full, App.punch_full, hemp, ha, h, t2,
          i21, i22, b2]

/-- C10 witness: a zero (falsy) `employee_id` is rejected; a numeric
`employee_id` with a boolean latitude (all scalars) is inserted as
submitted; an array `employee_id` passes validation yet nothing is
inserted. -/
theorem C10_witness :
    (truthyFull (jsonGetFull ([("employee_id", JsonFull.num (0 : Rat)),
        ("action", JsonFull.str ("in"))]) ("employee_id")) = false ∧
     (App.punch_full testEnv true (JsonBodyFull.obj
        ([("employee_id", JsonFull.num (0 : Rat)),
          ("action", JsonFull.str ("in"))])) emptyStore).1.status = 400) ∧
    (truthyFull (jsonGetFull ([("employee_id", JsonFull.num (7 : Rat)),
        ("action", JsonFull.str ("out")), ("latitude", JsonFull.bool true)])
        ("employee_id")) = true ∧
     (App.punch_full testEnv true (JsonBodyFull.obj
        ([("employee_id", JsonFull.num (7 : Rat)),
          ("action", JsonFull.str ("out")),
          ("latitude", JsonFull.bool true)])) emptyStore).2 =
      insertPunch emptyStore (Json.num (7 : Rat)) (Json.str ("out"))
        (Json.bool true) Json.null testEnv.clock) ∧
    (sqliteBindable (jsonGetFull ([("employee_id",
        JsonFull.arr [JsonFull.str ("E1")]), ("action", JsonFull.str ("in"))])
        ("employee_id")) = false ∧
     (Server.handle_punch_full testEnv (JsonBodyFull.obj
        ([("employee_id", JsonFull.arr [JsonFull.str ("E1")]),
          ("action", JsonFull.str ("in"))])) initState).1 = none) := by
  refine ⟨⟨by decide, ?_⟩, ⟨by decide, ?_⟩, ⟨by decide, ?_⟩⟩
  · exact ((C10_thm testEnv ([("employee_id", JsonFull.num (0 : Rat)),
      ("action", JsonFull.str ("in"))]) initState emptyStore).1
      (by decide)).2.2.1
  · have h := ((C10_thm testEnv ([("employee_id", JsonFull.num (7 : Rat)),
      ("action", JsonFull.str ("out")), ("latitude", JsonFull.bool true)])
      initState emptyStore).2.1 (by decide) (by decide) (by decide)
      (by decide) (by decide)).2.2.2
    simpa using h
  · exact ((C10_thm testEnv ([("employee_id",
      JsonFull.arr [JsonFull.str ("E1")]), ("action", JsonFull.str ("in"))])
      initState emptyStore).2.2 (by decide) (by decide)
      (Or.inl (by decide))).1

/-- C8 (amended): with a JSON `Content-Type`, the two implementations agree
— same response status, same success/failure outcome, same store mutation —
on every malformed body and on every object body whose four read fields
bind as SQLite scalars (response message texts still differ); they diverge
everywhere else: on a non-JSON `Content-Type` (the counterexample: Flask
415 and no insert versus 200 and insert), on a well-formed non-object body
(Flask 500 versus no response), and on an object body that passes
validation with a composite field value (Flask 500 versus no response). -/
theorem C8_amended (env : Env) (store : PunchStore) (sessions : List String) :
    ((App.punch_full env true JsonBodyFull.malformed store).1.status = 400 ∧
     (∃ r, (Server.handle_punch_full env JsonBodyFull.malformed
        ⟨store, sessions⟩).1 = some r ∧ r.status = 400) ∧
     (App.punch_full env true JsonBodyFull.malformed store).2 = store ∧
     (Server.handle_punch_full env JsonBodyFull.malformed
        ⟨store, sessions⟩).2.store = store) ∧
    (∀ fields : List (String × JsonFull),
      sqliteBindable (jsonGetFull fields ("employee_id")) = true →
      sqliteBindable (jsonGetFull fields ("action")) = true →
      sqliteBindable (jsonGetFull fields ("latitude")) = true →
      sqliteBindable (jsonGetFull fields ("longitude")) = true →
      ∃ r, (Server.handle_punch_full env (JsonBodyFull.obj fields)
          ⟨store, sessions⟩).1 = some r ∧
        (App.punch_full env true (JsonBodyFull.obj fields) store).1.status =
          r.status ∧
        ((App.punch_full env true (JsonBodyFull.obj fields) store).1.status
            = 200 ↔ r.status = 200) ∧
        (App.punch_full env true (JsonBodyFull.obj fields) store).2 =
          (Server.handle_punch_full env (JsonBodyFull.obj fields)
            ⟨store, sessions⟩).2.store) ∧
    ((App.punch_full env true JsonBodyFull.nonObj store).1.status = 500 ∧
     (Server.handle_punch_full env JsonBodyFull.nonObj
        ⟨store, sessions⟩).1 = none ∧
     (App.punch_full env true JsonBodyFull.nonObj store).2 = store ∧
     (Server.handle_punch_full env JsonBodyFull.nonObj
        ⟨store, sessions⟩).2.store = store) ∧
    (∀ fields : List (String × JsonFull),
      truthyFull (jsonGetFull fields ("employee_id")) = true →
      (isStrVal (jsonGetFull fields ("action")) ("in") = true ∨
       isStrVal (jsonGetFull fields ("action")) ("out") = true) →
      (sqliteBindable (jsonGetFull fields ("employee_id")) = false ∨
       sqliteBindable (jsonGetFull fields ("latitude")) = false ∨
       sqliteBindable (jsonGetFull fields ("longitude")) = false) →
      (App.punch_full env true (JsonBodyFull.obj fields) store).1.status
        = 500 ∧
      (Server.handle_punch_full env (JsonBodyFull.obj fields)
        ⟨store, sessions⟩).1 = none) := by
  refine ⟨⟨rfl, ⟨_, rfl, rfl⟩, rfl, rfl⟩, ?_, ⟨rfl, rfl, rfl, rfl⟩, ?_⟩
  · intro fields hb1 hb2 hb3 hb4
    have t1 : truthyFull (JsonFull.str ("in")) = true := by decide
    have t2 : truthyFull (JsonFull.str ("out")) = true := by decide
    have i11 : isStrVal (JsonFull.str ("in")) ("in") = true := by decide
    have i12 : isStrVal (JsonFull.str ("in")) ("out") = false := by decide
    have i21 : isStrVal (JsonFull.str ("out")) ("in") = false := by decide
    have i22 : isStrVal (JsonFull.str ("out")) ("out") = true := by decide
    have bi : sqliteBindable (JsonFull.str ("in")) = true := rfl
    have bo : sqliteBindable (JsonFull.str ("out")) = true := rfl
    cases hte : truthyFull (jsonGetFull fields ("employee_id")) with
    | false =>
      refine ⟨⟨400, RespBody.jsonMsg false ("Invalid payload."),
        none, none, none⟩, ?_, ?_, ?_, ?_⟩ <;>
        simp [Server.handle_punch_full, App.punch_full, hte]
    | true =>
      by_cases hin : isStrVal (jsonGetFull fields ("action")) ("in") = true
      · have ha := isStrVal_eq hin
        refine ⟨⟨200, RespBody.jsonMsg true ("Punch recorded successfully."),
          none, none, none⟩, ?_, ?_, ?_, ?_⟩ <;>
          simp [Server.handle_punch_full, App.punch_full, hte, ha, hb1, hb3,
            hb4, t1, i11, i12, bi]
      · by_cases hout : isStrVal (jsonGetFull fields ("action")) ("out")
            = true
        · have ha := isStrVal_eq hout
          refine ⟨⟨200, RespBody.jsonMsg true ("Punch recorded successfully."),
            none, none, none⟩, ?_, ?_, ?_, ?_⟩ <;>
            simp [Server.handle_punch_full, App.punch_full, hte, ha, hb1,
              hb3, hb4, t2, i21, i22, bo]
        · have hin' : isStrVal (jsonGetFull fields ("action")) ("in")
              = false := by
            rcases hb : isStrVal (jsonGetFull fields ("action")) ("in")
            · rfl
            · exact absurd hb hin
          have hout' : isStrVal (jsonGetFull fields ("action")) ("out")
              = false := by
            rcases hb : isStrVal (jsonGetFull fields ("action")) ("out")
            · rfl
            · exact absurd hb hout
          cases hta : truthyFull (jsonGetFull fields ("action")) <;>
            refine ⟨⟨400, RespBody.jsonMsg false ("Invalid payload."),
              none, none, none⟩, ?_, ?_, ?_, ?_⟩ <;>
            simp [Server.handle_punch_full, App.punch_full, hte, hta, hin',
              hout']
  · intro fields hemp hact hnb
    have t1 : truthyFull (JsonFull.str ("in")) = true := by decide
    have t2 : truthyFull (JsonFull.str ("out")) = true := by decide
    have i11 : isStrVal (JsonFull.str ("in")) ("in") = true := by decide
    have i12 : isStrVal (JsonFull.str ("in")) ("out") = false := by decide
    have i21 : isStrVal (JsonFull.str ("out")) ("in") = false := by decide
    have i22 : isStrVal (JsonFull.str ("out")) ("out") = true := by decide
    have bi : sqliteBindable (JsonFull.str ("in")) = true := rfl
    have bo : sqliteBindable (JsonFull.str ("out")) = true := rfl
    rcases hact with hin | hin
    · have ha := isStrVal_eq hin
      rcases hnb with h | h | h <;>
        simp [Server.handle_punch_full, App.punch_full, hemp, ha, h, t1,
          i11, i12, bi]
    · have ha := isStrVal_eq hin
      rcases hnb with h | h | h <;>
        simp [Server.handle_punch_full, App.punch_full, hemp, ha, h, t2,
          i21, i22, bo]

/-- C8 witness: the agreement at a concrete scalar valid body, with its
bindability hypotheses discharged. -/
theorem C8_witness :
    (sqliteBindable (jsonGetFull ([("employee_id", JsonFull.str ("E1")),
        ("action", JsonFull.str ("in"))]) ("employee_id")) = true ∧
     sqliteBindable (jsonGetFull ([("employee_id", JsonFull.str ("E1")),
        ("action", JsonFull.str ("in"))]) ("action")) = true ∧
     sqliteBindable (jsonGetFull ([("employee_id", JsonFull.str ("E1")),
        ("action", JsonFull.str ("in"))]) ("latitude")) = true ∧
     sqliteBindable (jsonGetFull ([("employee_id", JsonFull.str ("E1")),
        ("action", JsonFull.str ("in"))]) ("longitude")) = true) ∧
    (∃ r, (Server.handle_punch_full testEnv (JsonBodyFull.obj
        ([("employee_id", JsonFull.str ("E1")),
          ("action", JsonFull.str ("in"))])) ⟨emptyStore, []⟩).1 = some r ∧
      (App.punch_full testEnv true (JsonBodyFull.obj
        ([("employee_id", JsonFull.str ("E1")),
          ("action", JsonFull.str ("in"))])) emptyStore).1.status =
        r.status ∧
      ((App.punch_full testEnv true (JsonBodyFull.obj
        ([("employee_id", JsonFull.str ("E1")),
          ("action", JsonFull.str ("in"))])) emptyStore).1.status = 200 ↔
        r.status = 200) ∧
      (App.punch_full testEnv true (JsonBodyFull.obj
        ([("employee_id", JsonFull.str ("E1")),
          ("action", JsonFull.str ("in"))])) emptyStore).2 =
        (Server.handle_punch_full testEnv (JsonBodyFull.obj
          ([("employee_id", JsonFull.str ("E1")),
            ("action", JsonFull.str ("in"))])) ⟨emptyStore, []⟩).2.store) :=
  ⟨⟨by decide, by decide, by decide, by decide⟩,
   (C8_amended testEnv emptyStore []).2.1
     ([("employee_id", JsonFull.str ("E1")),
       ("action", JsonFull.str ("in"))])
     (by decide) (by decide) (by decide) (by decide)⟩
